import Mathlib

/-!
# wmbusmeters: the EI6500 and EI650FA smoke detector drivers

A shallow embedding of `src/meter_ei6500.cc` and `src/meter_ei650fa.cc`:
the per-instance field storage, `processContent`, the text getters and the two
status renderers `status()` and `head_status()`.

Conventions of the embedding

* `std::string` is `String`; `s.pop_back()` is `popBack`, `s.length() > 0` is
  `0 < s.length`, `to_string` of an unsigned integer is `toString` on `Nat`.
* `uint8_t`, `uint16_t`, `uint32_t`, `uint64_t` fields are `Nat`; the extractors
  only ever produce values inside the range of the field they fill.
* A member function that mutates the object is a function returning the new object.
* `t->addMoreExplanation(offset, ...)` only annotates the telegram dump and never
  feeds back into the stored fields; the annotation sink and `offset` are left out.
* `decodeTPLStatusByte(tpl_sts_, &error_codes_)` lives outside the two drivers; the
  renderers take it as the parameter `dec`.
-/

namespace WMBus

/-! ## Strings -/

/-- The effect of `std::string::pop_back` on a non-empty string: the last character is removed. -/
def popBack (s : String) : String := ⟨s.data.dropLast⟩

/-- A string ends with the separator character (a space). -/
def endsWithSpace (s : String) : Prop := s.data.getLast? = some ' '

instance (s : String) : Decidable (endsWithSpace s) := by
  unfold endsWithSpace; infer_instance

/-! ## Head status flag masks (the `#define`s of both drivers) -/

def SOUNDER_FAULT_FLAG : Nat := 0x0020
def HEAD_TAMPER_FLAG : Nat := 0x0040
def EOL_REACHED_FLAG : Nat := 0x0080
def LOW_BAT_FAULT_FLAG : Nat := 0x1000
/-- Bit 0x2000 as named by meter_ei6500.cc. -/
def ALARM_SENSOR_FAULT_FLAG : Nat := 0x2000
def OBSTACLE_DETECTION_FAULT_FLAG : Nat := 0x4000
def SEODS_INST_FLAG : Nat := 0x10000
/-- Bit 0x2000 as named by meter_ei650fa.cc. -/
def HEAD_FAULT_FLAG : Nat := 0x2000
def PARITY_BIT_FLAG : Nat := 0x8000
def GLITCH_DETECT_FLAG : Nat := 0x100000

/-- The C test `if (word & FLAG)`: some bit of the mask is set in the word. -/
def flagSet (word mask : Nat) : Bool := word &&& mask != 0

/-! ## The tokenized record map and the telegram -/

/-- One data record of the tokenizer: the offset in the telegram and the raw value bytes. -/
structure DVEntry where
  offset : Nat
  value : List UInt8
deriving DecidableEq, Repr

/-- The map `signature -> record` handed over by the tokenizer (`t->values`). -/
abbrev Records := List (String × DVEntry)

/-- The part of `Telegram` the drivers read. -/
structure Telegram where
  tpl_sts : Nat
  values : Records

/-- The fields of `struct tm` used by the drivers. -/
structure Tm where
  tm_min : Nat
  tm_hour : Nat
  tm_mday : Nat
  tm_mon : Nat
  tm_year : Nat
deriving DecidableEq, Repr

/-- Outcome of a field extraction, as laid down in the contract of the field extractor. -/
inductive Extracted (α : Type) where
  | found (v : α)
  | notFound
  | malformed
deriving DecidableEq, Repr

/-- Modelled from the spec: the exact-signature lookup of the field extractor (dvparser is
not part of the sources); a signature is a key of the record map, matched as a whole. -/
def findRecord (values : Records) (key : String) : Option DVEntry :=
  values.lookup key

/-- Modelled from the spec: binary-integer decoding, "little-endian unsigned integer of the
declared byte width"; the helper of the missing `extractDVuint16/24/32`. -/
def leValue : List UInt8 → Nat
  | [] => 0
  | b :: bs => b.toNat + 256 * leValue bs

/-- Modelled from the spec: binary-integer extraction of the missing dvparser; `NotFound`
when the signature is absent, `MalformedError` when the byte count disagrees with the
declared width, else the little-endian value. -/
def decodeUInt (width : Nat) (values : Records) (key : String) : Extracted Nat :=
  match findRecord values key with
  | none => .notFound
  | some e => if e.value.length = width then .found (leValue e.value) else .malformed

/-- Modelled from the spec: the value of one BCD byte of the missing `extractDVlong`, "each
nibble representing one decimal digit", high nibble first. -/
def bcdByte (b : UInt8) : Nat := 10 * (b.toNat / 16) + b.toNat % 16

/-- Modelled from the spec: "raw bytes represent a BCD-encoded integer" (little-endian,
two digits per byte); the helper of the missing `extractDVlong`. -/
def bcdValue : List UInt8 → Nat
  | [] => 0
  | b :: bs => bcdByte b + 100 * bcdValue bs

/-- Modelled from the spec: BCD extraction of the missing `extractDVlong` for the
"BCD software-version (3 bytes BCD)" record. -/
def decodeBCD (values : Records) (key : String) : Extracted Nat :=
  match findRecord values key with
  | none => .notFound
  | some e => if e.value.length = 3 then .found (bcdValue e.value) else .malformed

/-- Modelled from the spec: the packed date of two bytes, "day (5 bits), month (4 bits),
two-digit year split across the remaining bits of both bytes", day and month "validated to
non-zero, in-range values"; the year counts from 2000 as in the documented sample. -/
def decodePackedDate (lo hi : UInt8) : Option Tm :=
  let day := lo.toNat % 32
  let month := hi.toNat % 16
  let year := lo.toNat / 32 + 8 * (hi.toNat / 16)
  if 1 ≤ day ∧ 1 ≤ month ∧ month ≤ 12 then
    some { tm_min := 0, tm_hour := 0, tm_mday := day, tm_mon := month - 1, tm_year := year + 100 }
  else none

/-- Modelled from the spec: packed date (2 bytes) and packed date-time (4 bytes, "adds
minute (6 bits) and hour (5 bits) ahead of the packed-date bytes") of the missing
`extractDVdate`. -/
def decodeDate (values : Records) (key : String) : Extracted Tm :=
  match findRecord values key with
  | none => .notFound
  | some e =>
    match e.value with
    | [lo, hi] =>
      match decodePackedDate lo hi with
      | some d => .found d
      | none => .malformed
    | [mi, ho, lo, hi] =>
      match decodePackedDate lo hi with
      | some d => .found { d with tm_min := mi.toNat % 64, tm_hour := ho.toNat % 32 }
      | none => .malformed
    | _ => .malformed

/-- Modelled from the spec: the calling convention of the missing dvparser functions
`bool extract...(values, key, &offset, &value)`. The result is the returned flag and the
content of `*value` after the call; on `NotFound` ("leave field at default") and on
`MalformedError` the target keeps its content and the flag is false. -/
def writeBack {α : Type} (r : Extracted α) (old : α) : Bool × α :=
  match r with
  | .found v => (true, v)
  | .notFound => (false, old)
  | .malformed => (false, old)

/-- Modelled from the spec: `extractDVuint16` of the missing dvparser, a 16 bit integer. -/
def extractDVuint16 (values : Records) (key : String) (old : Nat) : Bool × Nat :=
  writeBack (decodeUInt 2 values key) old

/-- Modelled from the spec: `extractDVuint24` of the missing dvparser, a 24 bit integer. -/
def extractDVuint24 (values : Records) (key : String) (old : Nat) : Bool × Nat :=
  writeBack (decodeUInt 3 values key) old

/-- Modelled from the spec: `extractDVuint32` of the missing dvparser, a 32 bit integer. -/
def extractDVuint32 (values : Records) (key : String) (old : Nat) : Bool × Nat :=
  writeBack (decodeUInt 4 values key) old

/-- Modelled from the spec: `extractDVlong` of the missing dvparser, applied by the drivers
to the BCD software version record. -/
def extractDVlong (values : Records) (key : String) (old : Nat) : Bool × Nat :=
  writeBack (decodeBCD values key) old

/-- Modelled from the spec: `extractDVdate` of the missing dvparser, a packed date or
date-time. -/
def extractDVdate (values : Records) (key : String) (old : Tm) : Bool × Tm :=
  writeBack (decodeDate values key) old

/-- Modelled from the spec: two decimal digits, zero padded, as in the date texts of the
documented sample (part of the missing `strdate` and `strdatetime`). -/
def pad2 (n : Nat) : String := if n < 10 then "0" ++ toString n else toString n

/-- Modelled from the spec: `strdate` of the missing util.cc, the date text `YYYY-MM-DD`
of the documented sample ("2021-02-11"). -/
def strdate (d : Tm) : String :=
  toString (d.tm_year + 1900) ++ "-" ++ pad2 (d.tm_mon + 1) ++ "-" ++ pad2 d.tm_mday

/-- Modelled from the spec: `strdatetime` of the missing util.cc, the text
`YYYY-MM-DD HH:MM` of the documented sample ("2021-02-11 12:48"). -/
def strdatetime (d : Tm) : String :=
  strdate d ++ " " ++ pad2 d.tm_hour ++ ":" ++ pad2 d.tm_min

/-- The version text built by `processContent` from the decoded BCD integer `serial`. -/
def versionText (serial : Nat) : String :=
  toString ((serial / 10000) % 100) ++ "." ++
  toString ((serial / 100) % 100) ++ "." ++
  toString (serial % 100)

/-! ## MeterEI6500 -/

/-- The stored fields of `struct MeterEI6500`; every field is default initialised. -/
structure MeterEI6500 where
  software_version_ : String := ""
  message_datetime_ : String := ""
  tpl_sts_ : Nat := 0
  info_codes_ : Nat := 0
  head_status_ : Nat := 0
  smoke_alarm_counter_ : Nat := 0
  commission_date_ : String := ""
  last_alarm_date_ : String := ""
  total_remove_duration_ : Nat := 0
  last_remove_date_ : String := ""
  test_button_last_date_ : String := ""
  removed_counter_ : Nat := 0
  test_button_counter_ : Nat := 0
  sounder_test_last_date_ : String := ""
deriving DecidableEq, Repr

namespace MeterEI6500

def smokeDetected (_m : MeterEI6500) : Bool := false

def status (dec : Nat → String) (m : MeterEI6500) : String :=
  let s := dec m.tpl_sts_
  let s := if s = "OK" then "" else s ++ " "
  let s := if m.info_codes_ = 0 then s ++ "TPL Status Field ok " else s
  if 0 < s.length then popBack s else "OK"

def head_status (dec : Nat → String) (m : MeterEI6500) : String :=
  let hs := dec m.tpl_sts_
  let hs := if hs = "OK" then "" else hs ++ " "
  let hs := if flagSet m.head_status_ SEODS_INST_FLAG then hs ++ "SEODS Installation Complete " else hs
  let hs := if flagSet m.head_status_ HEAD_TAMPER_FLAG then hs ++ "HEAD TAMPER FLAG Set " else hs
  let hs := if flagSet m.head_status_ LOW_BAT_FAULT_FLAG then hs ++ "LOW BATTERY FLAG Set " else hs
  let hs := if flagSet m.head_status_ ALARM_SENSOR_FAULT_FLAG then hs ++ "ALARM SENSOR FAULT FLAG Set " else hs
  let hs := if flagSet m.head_status_ OBSTACLE_DETECTION_FAULT_FLAG then hs ++ "OBSTACLE DETECTION FAULT FLAG Set " else hs
  let hs := if flagSet m.head_status_ EOL_REACHED_FLAG then hs ++ "EOL REACHED FLAG Set " else hs
  if 0 < hs.length then "Head status: " ++ popBack hs else "Head status OK"

def softwareVersion (m : MeterEI6500) : String := "Software Version: " ++ m.software_version_
def messageDate (m : MeterEI6500) : String := "Message date & time: " ++ m.message_datetime_
def commissionDate (m : MeterEI6500) : String := "Commission date: " ++ m.commission_date_
def lastAlarmDate (m : MeterEI6500) : String := "Last alarm date: " ++ m.last_alarm_date_
def smokeAlarmCounter (m : MeterEI6500) : String :=
  "Alarm counter: " ++ toString m.smoke_alarm_counter_
def testButtonLastDate (m : MeterEI6500) : String :=
  "Last test button date: " ++ m.test_button_last_date_
def testButtonCounter (m : MeterEI6500) : String :=
  "Test button counter: " ++ toString m.test_button_counter_
def lastRemoveDate (m : MeterEI6500) : String := "Head removed date: " ++ m.last_remove_date_
def removedCounter (m : MeterEI6500) : String :=
  "Head removed counter: " ++ toString m.removed_counter_
def totalRemoveDuration (m : MeterEI6500) : String :=
  "Remove duration: " ++ toString m.total_remove_duration_ ++ " minutes"
def sounderTestLastDate (m : MeterEI6500) : String :=
  "Last sounder test date: " ++ m.sounder_test_last_date_

/-- The body of `MeterEI6500::processContent`, statement by statement. `datetime0` is the
content of the uninitialised local `struct tm datetime` at entry; the uninitialised local
`serial` is read only after a successful extraction and enters as 0. -/
def processContent (m : MeterEI6500) (t : Telegram) (datetime0 : Tm) : MeterEI6500 :=
  let m := { m with tpl_sts_ := t.tpl_sts }
  let r := extractDVlong t.values "0BFD0F" 0
  let m := if r.1 then { m with software_version_ := versionText r.2 } else m
  let r := extractDVdate t.values "046D" datetime0
  let datetime := r.2
  let m := if r.1 then { m with message_datetime_ := strdatetime datetime } else m
  let m := { m with info_codes_ := (extractDVuint16 t.values "02FD17" m.info_codes_).2 }
  let m := { m with head_status_ := (extractDVuint32 t.values "8440FF2C" m.head_status_).2 }
  let datetime := (extractDVdate t.values "82206C" datetime).2
  let m := { m with commission_date_ := strdate datetime }
  let datetime := (extractDVdate t.values "82506C" datetime).2
  let m := { m with last_alarm_date_ := strdate datetime }
  let m := { m with
    smoke_alarm_counter_ := (extractDVuint16 t.values "8250FD61" m.smoke_alarm_counter_).2 }
  let datetime := (extractDVdate t.values "82606C" datetime).2
  let m := { m with last_remove_date_ := strdate datetime }
  let m := { m with removed_counter_ := (extractDVuint16 t.values "8260FD61" m.removed_counter_).2 }
  let m := { m with
    total_remove_duration_ := (extractDVuint24 t.values "8360FD31" m.total_remove_duration_).2 }
  let datetime := (extractDVdate t.values "82706C" datetime).2
  let m := { m with test_button_last_date_ := strdate datetime }
  let m := { m with
    test_button_counter_ := (extractDVuint16 t.values "8270FD61" m.test_button_counter_).2 }
  let datetime := (extractDVdate t.values "426C" datetime).2
  { m with sounder_test_last_date_ := strdate datetime }

end MeterEI6500

/-! ## MeterEI650FA -/

/-- The stored fields of `struct MeterEI650FA`; every field is default initialised. -/
structure MeterEI650FA where
  software_version_ : String := ""
  message_datetime_ : String := ""
  tpl_sts_ : Nat := 0
  info_codes_ : Nat := 0
  head_status_ : Nat := 0
  smoke_alarm_counter_ : Nat := 0
  commission_date_ : String := ""
  last_alarm_date_ : String := ""
  total_remove_duration_ : Nat := 0
  last_remove_date_ : String := ""
  test_button_last_date_ : String := ""
  removed_counter_ : Nat := 0
  test_button_counter_ : Nat := 0
  sounder_test_last_date_ : String := ""
deriving DecidableEq, Repr

namespace MeterEI650FA

def smokeDetected (_m : MeterEI650FA) : Bool := false

def status (dec : Nat → String) (m : MeterEI650FA) : String :=
  let s := dec m.tpl_sts_
  let s := if s = "OK" then "" else s ++ " "
  let s := if m.info_codes_ = 0 then s ++ "TPL Status Field ok " else s
  if 0 < s.length then popBack s else "OK"

def head_status (dec : Nat → String) (m : MeterEI650FA) : String :=
  let hs := dec m.tpl_sts_
  let hs := if hs = "OK" then "" else hs ++ " "
  let hs := if flagSet m.head_status_ HEAD_TAMPER_FLAG then hs ++ "HEAD TAMPER FLAG Set " else hs
  let hs := if flagSet m.head_status_ SOUNDER_FAULT_FLAG then hs ++ "SOUNDER FAULT FLAG Set " else hs
  let hs := if flagSet m.head_status_ LOW_BAT_FAULT_FLAG then hs ++ "LOW BATTERY FLAG Set " else hs
  let hs := if flagSet m.head_status_ EOL_REACHED_FLAG then hs ++ "EOL REACHED FLAG Set " else hs
  let hs := if flagSet m.head_status_ HEAD_FAULT_FLAG then hs ++ "HEAD FAULT FLAG Set " else hs
  let hs := if flagSet m.head_status_ PARITY_BIT_FLAG then hs ++ "PARITY BIT FLAG Set " else hs
  let hs := if flagSet m.head_status_ GLITCH_DETECT_FLAG then hs ++ "GLITCH DETECT FLAG Set " else hs
  if 0 < hs.length then popBack hs else "OK"

def messageDate (m : MeterEI650FA) : String := m.message_datetime_
def commissionDate (m : MeterEI650FA) : String := m.commission_date_
def lastAlarmDate (m : MeterEI650FA) : String := m.last_alarm_date_
def totalRemoveDuration (m : MeterEI650FA) : String :=
  toString m.total_remove_duration_ ++ " minutes"
def smokeAlarmCounter (m : MeterEI650FA) : String := toString m.smoke_alarm_counter_
def testButtonCounter (m : MeterEI650FA) : String := toString m.test_button_counter_
def removedCounter (m : MeterEI650FA) : String := toString m.removed_counter_
def lastRemoveDate (m : MeterEI650FA) : String := m.last_remove_date_
def testButtonLastDate (m : MeterEI650FA) : String := m.test_button_last_date_
def sounderTestLastDate (m : MeterEI650FA) : String := m.sounder_test_last_date_

/-- The body of `MeterEI650FA::processContent`, statement by statement. `datetime0` is the
content of the uninitialised local `struct tm datetime` at entry; the uninitialised local
`serial` is read only after a successful extraction and enters as 0. -/
def processContent (m : MeterEI650FA) (t : Telegram) (datetime0 : Tm) : MeterEI650FA :=
  let m := { m with tpl_sts_ := t.tpl_sts }
  let r := extractDVlong t.values "0BFD0F" 0
  let m := if r.1 then { m with software_version_ := versionText r.2 } else m
  let r := extractDVdate t.values "046D" datetime0
  let datetime := r.2
  let m := if r.1 then { m with message_datetime_ := strdatetime datetime } else m
  let m := { m with info_codes_ := (extractDVuint16 t.values "02FD17" m.info_codes_).2 }
  let m := { m with head_status_ := (extractDVuint32 t.values "8440FF2C" m.head_status_).2 }
  let datetime := (extractDVdate t.values "82206C" datetime).2
  let m := { m with commission_date_ := strdate datetime }
  let datetime := (extractDVdate t.values "82506C" datetime).2
  let m := { m with last_alarm_date_ := strdate datetime }
  let m := { m with
    smoke_alarm_counter_ := (extractDVuint16 t.values "8450FD61" m.smoke_alarm_counter_).2 }
  let m := { m with removed_counter_ := (extractDVuint16 t.values "8460FD61" m.removed_counter_).2 }
  let m := { m with
    test_button_counter_ := (extractDVuint16 t.values "8470FD61" m.test_button_counter_).2 }
  let m := { m with
    total_remove_duration_ := (extractDVuint24 t.values "8360FD31" m.total_remove_duration_).2 }
  let datetime := (extractDVdate t.values "82606C" datetime).2
  let m := { m with last_remove_date_ := strdate datetime }
  let datetime := (extractDVdate t.values "82706C" datetime).2
  let m := { m with test_button_last_date_ := strdate datetime }
  let datetime := (extractDVdate t.values "426C" datetime).2
  { m with sounder_test_last_date_ := strdate datetime }

end MeterEI650FA

/-- The record map of the sample telegram documented in the comment of `processContent`
(the same bytes in both drivers), offsets as printed there. -/
def sampleValues : Records :=
  [ ("0BFD0F",   ⟨0x14, [0x06, 0x01, 0x01]⟩),
    ("046D",     ⟨0x19, [0x30, 0x0C, 0xAB, 0x22]⟩),
    ("02FD17",   ⟨0x20, [0x00, 0x00]⟩),
    ("82206C",   ⟨0x25, [0xAB, 0x22]⟩),
    ("426C",     ⟨0x29, [0x01, 0x01]⟩),
    ("8440FF2C", ⟨0x2f, [0x00, 0x0F, 0x11, 0x00]⟩),
    ("8250FD61", ⟨0x37, [0x00, 0x00]⟩),
    ("82506C",   ⟨0x3c, [0x01, 0x01]⟩),
    ("8260FD61", ⟨0x42, [0x00, 0x00]⟩),
    ("8360FD31", ⟨0x48, [0x00, 0x00, 0x00]⟩),
    ("82606C",   ⟨0x4e, [0x01, 0x01]⟩),
    ("8270FD61", ⟨0x54, [0x01, 0x00]⟩),
    ("82706C",   ⟨0x59, [0xAB, 0x22]⟩) ]

/-- The sample telegram; its transport status byte is not documented and taken as 0. -/
def sampleTelegram : Telegram := { tpl_sts := 0, values := sampleValues }

/-! ## Reference definitions used by the statements and proofs -/

/-- Every token followed by one space: the text the renderers accumulate. -/
def spaced : List String → String
  | [] => ""
  | t :: ts => t ++ " " ++ spaced ts

/-- Every token preceded by the separator. -/
def sepd (s : String) : List String → String
  | [] => ""
  | t :: ts => s ++ t ++ sepd s ts

/-- The names of the vocabulary entries with a bit set in `w`, in table order. -/
def setLabels (vocabulary : List (Nat × String)) (w : Nat) : List String :=
  (vocabulary.filter (fun e => w &&& e.1 != 0)).map (fun e => e.2)

/-- The chain of `if (head_status_ & FLAG) hs.append("NAME ")` statements over a table. -/
def appendSet (w : Nat) (hs : String) : List (Nat × String) → String
  | [] => hs
  | e :: rest => appendSet w (if flagSet w e.1 then hs ++ (e.2 ++ " ") else hs) rest

/-- The vocabulary table of `MeterEI650FA::head_status`, in the order of its statements. -/
def vocabularyEI650FA : List (Nat × String) :=
  [ (0x40, "HEAD TAMPER FLAG Set"), (0x20, "SOUNDER FAULT FLAG Set"),
    (0x1000, "LOW BATTERY FLAG Set"), (0x80, "EOL REACHED FLAG Set"),
    (0x2000, "HEAD FAULT FLAG Set"), (0x8000, "PARITY BIT FLAG Set"),
    (0x100000, "GLITCH DETECT FLAG Set") ]

/-- The vocabulary table of `MeterEI6500::head_status`, in the order of its statements. -/
def vocabularyEI6500 : List (Nat × String) :=
  [ (0x10000, "SEODS Installation Complete"), (0x40, "HEAD TAMPER FLAG Set"),
    (0x1000, "LOW BATTERY FLAG Set"), (0x2000, "ALARM SENSOR FAULT FLAG Set"),
    (0x4000, "OBSTACLE DETECTION FAULT FLAG Set"), (0x80, "EOL REACHED FLAG Set") ]

/-- The tokens of a rendered status: the base phrase unless it is "OK", then the labels. -/
def statusTokens (p : String) (labels : List String) : List String :=
  (if p = "OK" then [] else [p]) ++ labels

/-- The reference renderer in the words of the specification: the tokens joined by single
spaces, and "OK" when there is no token. -/
def renderReference (vocabulary : List (Nat × String)) (p : String) (w : Nat) : String :=
  let labels := setLabels vocabulary w
  let toks := (if p = "OK" then [] else [p]) ++ labels
  if toks = [] then "OK" else " ".intercalate toks

/-- The tokens `status()` adds after the base phrase. -/
def infoTokens (info_codes : Nat) : List String :=
  if info_codes = 0 then ["TPL Status Field ok"] else []

/-- The text before the first dot of a dotted version text: its first (major) position. -/
def firstGroup (s : String) : String := ⟨s.data.takeWhile (fun c => c != '.')⟩

/-- The text after the last dot of a dotted version text: its last position. -/
def lastGroup (s : String) : String := ⟨(s.data.reverse.takeWhile (fun c => c != '.')).reverse⟩

/-- A telegram that carries the message date-time record and none of the five date records. -/
def datelessTelegram : Telegram :=
  { tpl_sts := 0, values := [("046D", ⟨0x19, [0x30, 0x0C, 0xAB, 0x22]⟩)] }

/-- The reference renderer of EI6500 in the words of the claim: the tokens joined by single
spaces after the lead-in "Head status: ", and "Head status OK" when there is no token. -/
def renderReferenceEI6500 (vocabulary : List (Nat × String)) (p : String) (w : Nat) : String :=
  let labels := setLabels vocabulary w
  let toks := (if p = "OK" then [] else [p]) ++ labels
  if toks = [] then "Head status OK" else "Head status: " ++ " ".intercalate toks

/-- A record map that carries the counter records of both profiles side by side. -/
def bothCounters : Records :=
  [ ("8250FD61", ⟨0x37, [0x05, 0x00]⟩), ("8450FD61", ⟨0x3b, [0x07, 0x00]⟩),
    ("8260FD61", ⟨0x41, [0x02, 0x00]⟩), ("8460FD61", ⟨0x45, [0x03, 0x00]⟩),
    ("8270FD61", ⟨0x4b, [0x09, 0x00]⟩), ("8470FD61", ⟨0x4f, [0x0B, 0x00]⟩) ]

/-- The map `bothCounters` with other bytes under the three EI650FA counter signatures. -/
def bothCountersFA : Records :=
  [ ("8250FD61", ⟨0x37, [0x05, 0x00]⟩), ("8450FD61", ⟨0x3b, [0xFF, 0x01]⟩),
    ("8260FD61", ⟨0x41, [0x02, 0x00]⟩), ("8460FD61", ⟨0x45, [0xFE, 0x02]⟩),
    ("8270FD61", ⟨0x4b, [0x09, 0x00]⟩), ("8470FD61", ⟨0x4f, [0xFD, 0x03]⟩) ]

/-- The map `bothCounters` with other bytes under the three EI6500 counter signatures. -/
def bothCounters65 : Records :=
  [ ("8250FD61", ⟨0x37, [0xFF, 0x01]⟩), ("8450FD61", ⟨0x3b, [0x07, 0x00]⟩),
    ("8260FD61", ⟨0x41, [0xFE, 0x02]⟩), ("8460FD61", ⟨0x45, [0x03, 0x00]⟩),
    ("8270FD61", ⟨0x4b, [0xFD, 0x03]⟩), ("8470FD61", ⟨0x4f, [0x0B, 0x00]⟩) ]

/-- A telegram that mixes the three cases: the version record (0BFD0F, two bytes), the head
status record (8440FF2C, three bytes) and the commission date (82206C, month 0) are
malformed; 02FD17, 82606C, 8260FD61 and 82706C are absent; the other records are well-formed
with the byte count their primary descriptor declares. -/
def partlyMalformedTelegram : Telegram :=
  { tpl_sts := 0x04,
    values :=
      [ ("0BFD0F", ⟨0x14, [0x06, 0x01]⟩), ("046D", ⟨0x19, [0x30, 0x0C, 0xAB, 0x22]⟩),
        ("8440FF2C", ⟨0x2f, [0x00, 0x0F, 0x11]⟩), ("82206C", ⟨0x25, [0xAB, 0x20]⟩),
        ("82506C", ⟨0x3c, [0x01, 0x01]⟩), ("8250FD61", ⟨0x37, [0x05, 0x00]⟩),
        ("8360FD31", ⟨0x48, [0x07, 0x00, 0x00]⟩), ("8270FD61", ⟨0x54, [0x09, 0x00]⟩),
        ("426C", ⟨0x29, [0xAB, 0x22]⟩) ] }

/-- Modelled from the spec: the contract of the transport status decoder
`decodeTPLStatusByte` (not part of the sources), which produces "either the literal "OK" or
a descriptive phrase"; in particular its text is never empty. -/
def decoderContract (dec : Nat → String) : Prop := ∀ sts, dec sts ≠ ""

/-- An EI650FA instance and an EI6500 instance hold identical stored field values. -/
def sameStoredFields (a : MeterEI650FA) (b : MeterEI6500) : Prop :=
  a.software_version_ = b.software_version_ ∧ a.message_datetime_ = b.message_datetime_ ∧
  a.tpl_sts_ = b.tpl_sts_ ∧ a.info_codes_ = b.info_codes_ ∧ a.head_status_ = b.head_status_ ∧
  a.smoke_alarm_counter_ = b.smoke_alarm_counter_ ∧ a.commission_date_ = b.commission_date_ ∧
  a.last_alarm_date_ = b.last_alarm_date_ ∧
  a.total_remove_duration_ = b.total_remove_duration_ ∧
  a.last_remove_date_ = b.last_remove_date_ ∧
  a.test_button_last_date_ = b.test_button_last_date_ ∧
  a.removed_counter_ = b.removed_counter_ ∧ a.test_button_counter_ = b.test_button_counter_ ∧
  a.sounder_test_last_date_ = b.sounder_test_last_date_

instance (a : MeterEI650FA) (b : MeterEI6500) : Decidable (sameStoredFields a b) := by
  unfold sameStoredFields; infer_instance

/-- Modelled from the spec: the packed 2-byte date format read the other way round, "day
(5 bits), month (4 bits), two-digit year split across the remaining bits of both bytes"; the
sources hold no encoder. The result is the pair (day byte, month byte). -/
def encodePackedDate (day month year : Nat) : UInt8 × UInt8 :=
  (UInt8.ofNat (day + 32 * (year % 8)), UInt8.ofNat (month + 16 * (year / 8)))

/-- Modelled from the spec: the packed 4-byte date-time, which "adds minute (6 bits) and hour
(5 bits) ahead of the packed-date bytes"; the sources hold no encoder. -/
def encodePackedDateTime (minute hour day month year : Nat) : List UInt8 :=
  [UInt8.ofNat minute, UInt8.ofNat hour, (encodePackedDate day month year).1,
    (encodePackedDate day month year).2]

/-- Value of one hexadecimal digit of a signature text (signatures are written with the
digits 0-9 and A-F). -/
def hexDigit (c : Char) : Option Nat :=
  let i := "0123456789ABCDEF".data.indexOf c
  if i < 16 then some i else none

/-- The data-field nibble of the first byte of a signature (its primary descriptor): the low
nibble, written as the second hexadecimal digit of the signature text. -/
def dataFieldNibble (sig : String) : Option Nat :=
  match sig.data with
  | _ :: lo :: _ => hexDigit lo
  | _ => none

/-- Modelled from the spec: the integer width "declared by the signature's primary
descriptor", 1 = 8 bit, 2 = 16 bit, 3 = 24 bit, 4 = 32 bit, as the sample comment of
`processContent` reads it too (02 and 82: 16 bit, 83: 24 bit, 84: 32 bit); the decoding of
the descriptor itself is part of the missing dvparser. -/
def declaredBits (sig : String) : Option Nat :=
  match dataFieldNibble sig with
  | some 1 => some 8
  | some 2 => some 16
  | some 3 => some 24
  | some 4 => some 32
  | _ => none

/-- The binary-integer extractions of `MeterEI6500::processContent`: the field filled, the
signature passed and the width in bits of the extractor called (`extractDVuint16`,
`extractDVuint24`, `extractDVuint32`). -/
def integerExtractionsEI6500 : List (String × String × Nat) :=
  [ ("info_codes_", "02FD17", 16), ("head_status_", "8440FF2C", 32),
    ("smoke_alarm_counter_", "8250FD61", 16), ("removed_counter_", "8260FD61", 16),
    ("total_remove_duration_", "8360FD31", 24), ("test_button_counter_", "8270FD61", 16) ]

/-- The binary-integer extractions of `MeterEI650FA::processContent`: the field filled, the
signature passed and the width in bits of the extractor called. -/
def integerExtractionsEI650FA : List (String × String × Nat) :=
  [ ("info_codes_", "02FD17", 16), ("head_status_", "8440FF2C", 32),
    ("smoke_alarm_counter_", "8450FD61", 16), ("removed_counter_", "8460FD61", 16),
    ("test_button_counter_", "8470FD61", 16), ("total_remove_duration_", "8360FD31", 24) ]

/-- A telegram whose record 8470FD61 holds the four bytes its primary descriptor declares,
the 32 bit value 65536. -/
def wideCounterTelegram : Telegram :=
  { tpl_sts := 0, values := [("8470FD61", ⟨0x54, [0x00, 0x00, 0x01, 0x00]⟩)] }

/-- The call `status()` of EI6500 as a state transformer: the body assigns no member, so the
object after the call is the object before it. -/
def MeterEI6500.statusCall (dec : Nat → String) (m : MeterEI6500) : String × MeterEI6500 :=
  (m.status dec, m)

/-- The call `head_status()` of EI6500 as a state transformer; the body assigns no member. -/
def MeterEI6500.head_statusCall (dec : Nat → String) (m : MeterEI6500) :
    String × MeterEI6500 :=
  (m.head_status dec, m)

/-- The call `status()` of EI650FA as a state transformer; the body assigns no member. -/
def MeterEI650FA.statusCall (dec : Nat → String) (m : MeterEI650FA) : String × MeterEI650FA :=
  (m.status dec, m)

/-- The call `head_status()` of EI650FA as a state transformer; the body assigns no member. -/
def MeterEI650FA.head_statusCall (dec : Nat → String) (m : MeterEI650FA) :
    String × MeterEI650FA :=
  (m.head_status dec, m)

/-! ## Lemmas -/

theorem popBack_data (s : String) : (popBack s).data = s.data.dropLast := rfl

theorem popBack_append_space (s : String) : popBack (s ++ " ") = s := by
  apply String.ext
  have h : (" " : String).data = [' '] := rfl
  rw [popBack_data, String.data_append, h, List.dropLast_concat]

theorem popBack_append (u x : String) (hx : x ≠ "") : popBack (u ++ x) = u ++ popBack x := by
  apply String.ext
  have hx2 : x.data ≠ [] := fun h => hx (String.ext h)
  rw [popBack_data, String.data_append, String.data_append, popBack_data,
    List.dropLast_append_of_ne_nil _ hx2]

theorem intercalate_go (s : String) (as : List String) (acc : String) :
    String.intercalate.go acc s as = acc ++ sepd s as := by
  induction as generalizing acc with
  | nil => simp [String.intercalate.go, sepd]
  | cons a as ih => simp [String.intercalate.go, sepd, ih, String.append_assoc]

theorem spaced_ne (t : String) (ts : List String) : spaced (t :: ts) ≠ "" := by
  intro h
  have := congrArg String.length h
  simp [spaced, String.length_append] at this
  exact absurd this.1.2 (by decide)

theorem popBack_spaced (t : String) (ts : List String) :
    popBack (spaced (t :: ts)) = t ++ sepd " " ts := by
  induction ts generalizing t with
  | nil => simp [spaced, sepd, popBack_append_space]
  | cons b bs ih =>
    have : spaced (t :: b :: bs) = (t ++ " ") ++ spaced (b :: bs) := rfl
    rw [this, popBack_append _ _ (spaced_ne b bs), ih b]
    simp [sepd, String.append_assoc]

theorem popBack_spaced_eq (t : String) (ts : List String) :
    popBack (spaced (t :: ts)) = " ".intercalate (t :: ts) := by
  rw [popBack_spaced]; simp [String.intercalate, intercalate_go]

theorem spaced_append (xs ys : List String) : spaced (xs ++ ys) = spaced xs ++ spaced ys := by
  induction xs with
  | nil => simp [spaced]
  | cons x xs ih => simp [spaced, ih, String.append_assoc]

theorem appendSet_eq (w : Nat) (vocabulary : List (Nat × String)) (hs : String) :
    appendSet w hs vocabulary = hs ++ spaced (setLabels vocabulary w) := by
  induction vocabulary generalizing hs with
  | nil => simp [appendSet, setLabels, spaced]
  | cons e rest ih =>
    rw [appendSet, ih]
    by_cases h : flagSet w e.1
    · have h2 : (w &&& e.1 != 0) = true := h
      simp [h, setLabels, List.filter, h2, spaced, String.append_assoc]
    · have h2 : (w &&& e.1 != 0) = false := by simpa [flagSet] using h
      simp only [h]
      simp [setLabels, List.filter, h2]

theorem spaced_length_pos (t : String) (ts : List String) : 0 < (spaced (t :: ts)).length := by
  simp only [spaced, String.length_append]
  have : 0 < (" " : String).length := by decide
  omega

/-- The closing `if (hs.length() > 0) { hs.pop_back(); return f(hs); } return g;` of the
renderers, on an accumulated text `spaced toks`. -/
theorem finish_spaced (f : String → String) (g : String) (toks : List String) :
    (if 0 < (spaced toks).length then f (popBack (spaced toks)) else g) =
      if toks = [] then g else f (" ".intercalate toks) := by
  cases toks with
  | nil => simp [spaced]
  | cons t ts => rw [if_pos (spaced_length_pos t ts), popBack_spaced_eq]; simp

theorem spaced_statusTokens (p : String) (labels : List String) :
    (if p = "OK" then "" else p ++ " ") ++ spaced labels = spaced (statusTokens p labels) := by
  unfold statusTokens
  by_cases h : p = "OK"
  · simp [h]
  · simp [h, spaced, String.append_assoc]

theorem head_status_EI650FA_eq (dec : Nat → String) (m : MeterEI650FA) :
    m.head_status dec =
      if statusTokens (dec m.tpl_sts_) (setLabels vocabularyEI650FA m.head_status_) = [] then "OK"
      else " ".intercalate
        (statusTokens (dec m.tpl_sts_) (setLabels vocabularyEI650FA m.head_status_)) := by
  have h : m.head_status dec =
      (if 0 < (appendSet m.head_status_
            (if dec m.tpl_sts_ = "OK" then "" else dec m.tpl_sts_ ++ " ") vocabularyEI650FA).length
        then popBack (appendSet m.head_status_
            (if dec m.tpl_sts_ = "OK" then "" else dec m.tpl_sts_ ++ " ") vocabularyEI650FA)
        else "OK") := rfl
  rw [h, appendSet_eq, spaced_statusTokens]
  exact finish_spaced (fun s => s) "OK" _

theorem head_status_EI6500_eq (dec : Nat → String) (m : MeterEI6500) :
    m.head_status dec =
      if statusTokens (dec m.tpl_sts_) (setLabels vocabularyEI6500 m.head_status_) = []
      then "Head status OK"
      else "Head status: " ++ " ".intercalate
        (statusTokens (dec m.tpl_sts_) (setLabels vocabularyEI6500 m.head_status_)) := by
  have h : m.head_status dec =
      (if 0 < (appendSet m.head_status_
            (if dec m.tpl_sts_ = "OK" then "" else dec m.tpl_sts_ ++ " ") vocabularyEI6500).length
        then "Head status: " ++ popBack (appendSet m.head_status_
            (if dec m.tpl_sts_ = "OK" then "" else dec m.tpl_sts_ ++ " ") vocabularyEI6500)
        else "Head status OK") := rfl
  rw [h, appendSet_eq, spaced_statusTokens]
  exact finish_spaced (fun s => "Head status: " ++ s) "Head status OK" _

/-- The labels depend on the word only through the bits of the vocabulary. -/
theorem setLabels_congr (vocabulary : List (Nat × String)) (mask w1 w2 : Nat)
    (hv : ∀ e ∈ vocabulary, mask &&& e.1 = e.1) (h : w1 &&& mask = w2 &&& mask) :
    setLabels vocabulary w1 = setLabels vocabulary w2 := by
  unfold setLabels
  congr 1
  apply List.filter_congr
  intro e he
  have h1 : w1 &&& e.1 = w2 &&& e.1 := by
    rw [← hv e he, ← Nat.land_assoc, ← Nat.land_assoc, h]
  simp only [h1]

theorem vocabularyEI650FA_mask : ∀ e ∈ vocabularyEI650FA, 0x10B0E0 &&& e.1 = e.1 := by
  decide

theorem vocabularyEI6500_mask : ∀ e ∈ vocabularyEI6500, 0x170C0 &&& e.1 = e.1 := by
  decide

theorem setLabels_EI650FA_none (w : Nat) (h : w &&& 0x10B0E0 = 0) :
    setLabels vocabularyEI650FA w = [] := by
  rw [setLabels_congr vocabularyEI650FA 0x10B0E0 w 0 vocabularyEI650FA_mask (by rw [h]; rfl)]
  decide

theorem setLabels_EI6500_none (w : Nat) (h : w &&& 0x170C0 = 0) :
    setLabels vocabularyEI6500 w = [] := by
  rw [setLabels_congr vocabularyEI6500 0x170C0 w 0 vocabularyEI6500_mask (by rw [h]; rfl)]
  decide

theorem setLabels_EI650FA_tamper (w : Nat) (h : w &&& 0x10B0E0 = 0x40) :
    setLabels vocabularyEI650FA w = ["HEAD TAMPER FLAG Set"] := by
  rw [setLabels_congr vocabularyEI650FA 0x10B0E0 w 0x40 vocabularyEI650FA_mask (by rw [h]; rfl)]
  decide

theorem setLabels_EI6500_tamper (w : Nat) (h : w &&& 0x170C0 = 0x40) :
    setLabels vocabularyEI6500 w = ["HEAD TAMPER FLAG Set"] := by
  rw [setLabels_congr vocabularyEI6500 0x170C0 w 0x40 vocabularyEI6500_mask (by rw [h]; rfl)]
  decide

theorem intercalate_pair (p l : String) : " ".intercalate [p, l] = p ++ (" " ++ l) := by
  simp [String.intercalate, String.intercalate.go, String.append_assoc]

theorem status_EI650FA_eq (dec : Nat → String) (m : MeterEI650FA) :
    m.status dec =
      if statusTokens (dec m.tpl_sts_) (infoTokens m.info_codes_) = [] then "OK"
      else " ".intercalate (statusTokens (dec m.tpl_sts_) (infoTokens m.info_codes_)) := by
  have h : m.status dec =
      (if 0 < ((if dec m.tpl_sts_ = "OK" then "" else dec m.tpl_sts_ ++ " ")
            ++ spaced (infoTokens m.info_codes_)).length
        then popBack ((if dec m.tpl_sts_ = "OK" then "" else dec m.tpl_sts_ ++ " ")
            ++ spaced (infoTokens m.info_codes_))
        else "OK") := by
    unfold MeterEI650FA.status infoTokens
    by_cases hi : m.info_codes_ = 0
    · simp only [hi, if_true]; rfl
    · simp only [hi, if_false, spaced, String.append_empty]
  rw [h, spaced_statusTokens]
  exact finish_spaced (fun s => s) "OK" _

theorem status_EI6500_eq (dec : Nat → String) (m : MeterEI6500) :
    m.status dec =
      if statusTokens (dec m.tpl_sts_) (infoTokens m.info_codes_) = [] then "OK"
      else " ".intercalate (statusTokens (dec m.tpl_sts_) (infoTokens m.info_codes_)) := by
  have h : m.status dec =
      (if 0 < ((if dec m.tpl_sts_ = "OK" then "" else dec m.tpl_sts_ ++ " ")
            ++ spaced (infoTokens m.info_codes_)).length
        then popBack ((if dec m.tpl_sts_ = "OK" then "" else dec m.tpl_sts_ ++ " ")
            ++ spaced (infoTokens m.info_codes_))
        else "OK") := by
    unfold MeterEI6500.status infoTokens
    by_cases hi : m.info_codes_ = 0
    · simp only [hi, if_true]; rfl
    · simp only [hi, if_false, spaced, String.append_empty]
  rw [h, spaced_statusTokens]
  exact finish_spaced (fun s => s) "OK" _

theorem endsWithSpace_append (u x : String) (hx : x ≠ "") :
    endsWithSpace (u ++ x) ↔ endsWithSpace x := by
  have hx2 : x.data ≠ [] := fun h => hx (String.ext h)
  unfold endsWithSpace
  rw [String.data_append, List.getLast?_append_of_ne_nil _ hx2]

theorem sepd_not_endsWithSpace (ts : List String) (hts : ts ≠ [])
    (hl : ∀ t ∈ ts, t ≠ "" ∧ ¬ endsWithSpace t) (u : String) :
    ¬ endsWithSpace (u ++ sepd " " ts) := by
  induction ts generalizing u with
  | nil => exact absurd rfl hts
  | cons t ts ih =>
    have ht := hl t (List.mem_cons_self _ _)
    cases ts with
    | nil =>
      have : u ++ sepd " " [t] = (u ++ " ") ++ t := by
        simp [sepd, String.append_assoc]
      rw [this, endsWithSpace_append _ _ ht.1]
      exact ht.2
    | cons t2 rest =>
      have : u ++ sepd " " (t :: t2 :: rest) = (u ++ " " ++ t) ++ sepd " " (t2 :: rest) := by
        simp [sepd, String.append_assoc]
      rw [this]
      exact ih (List.cons_ne_nil _ _) (fun x hx => hl x (List.mem_cons_of_mem _ hx)) _

theorem intercalate_cons (t : String) (ts : List String) :
    " ".intercalate (t :: ts) = t ++ sepd " " ts := by
  simp [String.intercalate, intercalate_go]

theorem intercalate_not_endsWithSpace (p : String) (labels : List String)
    (hp : ¬ endsWithSpace p) (hl : ∀ t ∈ labels, t ≠ "" ∧ ¬ endsWithSpace t) :
    ¬ endsWithSpace (" ".intercalate (statusTokens p labels)) := by
  unfold statusTokens
  by_cases h : p = "OK"
  · simp only [h, if_true, List.nil_append]
    cases labels with
    | nil => decide
    | cons t ts =>
      rw [intercalate_cons]
      cases ts with
      | nil => simpa [sepd] using (hl t (List.mem_cons_self _ _)).2
      | cons t2 rest =>
        exact sepd_not_endsWithSpace _ (List.cons_ne_nil _ _)
          (fun x hx => hl x (List.mem_cons_of_mem _ hx)) _
  · simp only [h, if_false, List.singleton_append]
    rw [intercalate_cons]
    cases labels with
    | nil => simpa [sepd] using hp
    | cons t ts => exact sepd_not_endsWithSpace _ (List.cons_ne_nil _ _) hl _

theorem intercalate_ne_empty (p : String) (labels : List String) (hp : p ≠ "")
    (hl : ∀ t ∈ labels, t ≠ "" ∧ ¬ endsWithSpace t) (hne : statusTokens p labels ≠ []) :
    " ".intercalate (statusTokens p labels) ≠ "" := by
  have key : ∀ (t : String) (ts : List String), t ≠ "" → " ".intercalate (t :: ts) ≠ "" := by
    intro t ts ht h
    rw [intercalate_cons] at h
    have h2 := congrArg String.length h
    simp only [String.length_append] at h2
    have h3 : t.length ≠ 0 := by
      intro h0
      apply ht
      apply String.ext
      exact List.length_eq_zero.mp h0
    have h4 : ("" : String).length = 0 := rfl
    omega
  unfold statusTokens at hne ⊢
  by_cases h : p = "OK"
  · simp only [h, if_true, List.nil_append] at hne ⊢
    cases labels with
    | nil => exact absurd rfl hne
    | cons t ts => exact key t ts (hl t (List.mem_cons_self _ _)).1
  · simp only [h, if_false, List.singleton_append]
    exact key p labels hp

theorem setLabels_good (vocabulary : List (Nat × String))
    (hv : ∀ e ∈ vocabulary, e.2 ≠ "" ∧ ¬ endsWithSpace e.2) (w : Nat) :
    ∀ t ∈ setLabels vocabulary w, t ≠ "" ∧ ¬ endsWithSpace t := by
  intro t ht
  unfold setLabels at ht
  rw [List.mem_map] at ht
  obtain ⟨e, he, rfl⟩ := ht
  exact hv e (List.mem_of_mem_filter he)

theorem vocabularyEI650FA_good : ∀ e ∈ vocabularyEI650FA, e.2 ≠ "" ∧ ¬ endsWithSpace e.2 := by
  decide

theorem vocabularyEI6500_good : ∀ e ∈ vocabularyEI6500, e.2 ≠ "" ∧ ¬ endsWithSpace e.2 := by
  decide

theorem infoTokens_good (n : Nat) : ∀ t ∈ infoTokens n, t ≠ "" ∧ ¬ endsWithSpace t := by
  unfold infoTokens
  by_cases h : n = 0
  · simp only [h, if_true, List.mem_singleton]
    intro t ht
    subst ht
    decide
  · simp [h]

theorem software_version_EI650FA (a : MeterEI650FA) (t : Telegram) (d0 : Tm) (n : Nat)
    (h : decodeBCD t.values "0BFD0F" = .found n) :
    (a.processContent t d0).software_version_ = versionText n := by
  simp only [MeterEI650FA.processContent, extractDVlong, h, writeBack, if_true]
  split <;> rfl

theorem software_version_EI6500 (b : MeterEI6500) (t : Telegram) (d0 : Tm) (n : Nat)
    (h : decodeBCD t.values "0BFD0F" = .found n) :
    (b.processContent t d0).software_version_ = versionText n := by
  simp only [MeterEI6500.processContent, extractDVlong, h, writeBack, if_true]
  split <;> rfl

theorem toString_no_dot : ∀ k, k < 100 → ∀ c ∈ (toString k).data, (c != '.') = true := by
  decide

theorem firstGroup_versionText (n : Nat) :
    firstGroup (versionText n) = toString ((n / 10000) % 100) := by
  apply String.ext
  have hd : (".": String).data = ['.'] := rfl
  simp only [firstGroup, versionText, String.data_append, hd, List.append_assoc,
    List.singleton_append]
  rw [List.takeWhile_append_of_pos (toString_no_dot _ (Nat.mod_lt _ (by decide)))]
  simp

theorem lastGroup_versionText (n : Nat) :
    lastGroup (versionText n) = toString (n % 100) := by
  apply String.ext
  have hd : (".": String).data = ['.'] := rfl
  have hr : (versionText n).data.reverse =
      (toString (n % 100)).data.reverse ++
        '.' :: ((toString ((n / 100) % 100)).data.reverse ++
          '.' :: (toString ((n / 10000) % 100)).data.reverse) := by
    simp [versionText, String.data_append, hd]
  have hp : ∀ c ∈ (toString (n % 100)).data.reverse, (c != '.') = true :=
    fun c hc => toString_no_dot _ (Nat.mod_lt _ (by decide)) c (List.mem_reverse.mp hc)
  show ((versionText n).data.reverse.takeWhile (fun c => c != '.')).reverse = _
  rw [hr, List.takeWhile_append_of_pos hp]
  simp

theorem strdate_ne_empty (d : Tm) : strdate d ≠ "" := by
  intro h
  have h2 := congrArg String.length h
  simp only [strdate, String.length_append] at h2
  have h3 : ("-" : String).length = 1 := rfl
  have h4 : ("" : String).length = 0 := rfl
  omega

/-- The result of `MeterEI6500::processContent` depends on the record map only through the
records stored under the thirteen signatures it names. -/
theorem processContent_EI6500_congr (m : MeterEI6500) (s : Nat) (v1 v2 : Records) (d0 : Tm)
    (h : ∀ k ∈ ["0BFD0F", "046D", "02FD17", "8440FF2C", "82206C", "82506C", "8250FD61",
      "82606C", "8260FD61", "8360FD31", "82706C", "8270FD61", "426C"],
      findRecord v1 k = findRecord v2 k) :
    m.processContent ⟨s, v1⟩ d0 = m.processContent ⟨s, v2⟩ d0 := by
  simp only [List.mem_cons, List.mem_singleton, List.not_mem_nil, or_false, forall_eq_or_imp,
    forall_eq] at h
  obtain ⟨h1, h2, h3, h4, h5, h6, h7, h8, h9, h10, h11, h12, h13⟩ := h
  simp only [MeterEI6500.processContent, extractDVlong, extractDVdate, extractDVuint16,
    extractDVuint24, extractDVuint32, decodeBCD, decodeDate, decodeUInt,
    h1, h2, h3, h4, h5, h6, h7, h8, h9, h10, h11, h12, h13]

/-- The result of `MeterEI650FA::processContent` depends on the record map only through the
records stored under the thirteen signatures it names. -/
theorem processContent_EI650FA_congr (m : MeterEI650FA) (s : Nat) (v1 v2 : Records) (d0 : Tm)
    (h : ∀ k ∈ ["0BFD0F", "046D", "02FD17", "8440FF2C", "82206C", "82506C", "8450FD61",
      "8460FD61", "8470FD61", "8360FD31", "82606C", "82706C", "426C"],
      findRecord v1 k = findRecord v2 k) :
    m.processContent ⟨s, v1⟩ d0 = m.processContent ⟨s, v2⟩ d0 := by
  simp only [List.mem_cons, List.mem_singleton, List.not_mem_nil, or_false, forall_eq_or_imp,
    forall_eq] at h
  obtain ⟨h1, h2, h3, h4, h5, h6, h7, h8, h9, h10, h11, h12, h13⟩ := h
  simp only [MeterEI650FA.processContent, extractDVlong, extractDVdate, extractDVuint16,
    extractDVuint24, extractDVuint32, decodeBCD, decodeDate, decodeUInt,
    h1, h2, h3, h4, h5, h6, h7, h8, h9, h10, h11, h12, h13]

theorem bothCounters_agree_FA (k : String) (h1 : k ≠ "8450FD61") (h2 : k ≠ "8460FD61")
    (h3 : k ≠ "8470FD61") : findRecord bothCounters k = findRecord bothCountersFA k := by
  simp only [findRecord, bothCounters, bothCountersFA, List.lookup]
  have e1 : (k == "8450FD61") = false := by simpa using h1
  have e2 : (k == "8460FD61") = false := by simpa using h2
  have e3 : (k == "8470FD61") = false := by simpa using h3
  simp only [e1, e2, e3]

theorem bothCounters_agree_65 (k : String) (h1 : k ≠ "8250FD61") (h2 : k ≠ "8260FD61")
    (h3 : k ≠ "8270FD61") : findRecord bothCounters k = findRecord bothCounters65 k := by
  simp only [findRecord, bothCounters, bothCounters65, List.lookup]
  have e1 : (k == "8250FD61") = false := by simpa using h1
  have e2 : (k == "8260FD61") = false := by simpa using h2
  have e3 : (k == "8270FD61") = false := by simpa using h3
  simp only [e1, e2, e3]

theorem decodePackedDate_encode (day month year : Nat) (hd1 : 1 ≤ day) (hd2 : day ≤ 31)
    (hm1 : 1 ≤ month) (hm2 : month ≤ 12) (hy : year ≤ 99) :
    decodePackedDate (encodePackedDate day month year).1 (encodePackedDate day month year).2 =
      some { tm_min := 0, tm_hour := 0, tm_mday := day, tm_mon := month - 1,
             tm_year := year + 100 } := by
  have e1 : (UInt8.ofNat (day + 32 * (year % 8))).toNat = (day + 32 * (year % 8)) % 256 := rfl
  have e2 : (UInt8.ofNat (month + 16 * (year / 8))).toNat = (month + 16 * (year / 8)) % 256 :=
    rfl
  have a1 : (day + 32 * (year % 8)) % 256 % 32 = day := by omega
  have a2 : (month + 16 * (year / 8)) % 256 % 16 = month := by omega
  have a3 : (day + 32 * (year % 8)) % 256 / 32 + 8 * ((month + 16 * (year / 8)) % 256 / 16)
      = year := by omega
  simp only [decodePackedDate, encodePackedDate, e1, e2, a1, a2, a3]
  rw [if_pos ⟨hd1, hm1, hm2⟩]

theorem leValue_three (b0 b1 b2 : UInt8) :
    leValue [b0, b1, b2] = b0.toNat + 256 * b1.toNat + 65536 * b2.toNat := by
  simp only [leValue]
  omega

theorem findRecord_single (sig : String) (e : DVEntry) : findRecord [(sig, e)] sig = some e := by
  simp [findRecord, List.lookup]

theorem intercalate_single (p : String) : " ".intercalate [p] = p := by
  simp [String.intercalate, String.intercalate.go]

/-- The text of `status()` by cases on the base phrase and the info word. -/
theorem status_cases (p : String) (i : Nat) :
    (if statusTokens p (infoTokens i) = [] then "OK"
      else " ".intercalate (statusTokens p (infoTokens i))) =
    if i = 0 then (if p = "OK" then "TPL Status Field ok" else p ++ " TPL Status Field ok")
    else p := by
  have hl : (" " : String) ++ "TPL Status Field ok" = " TPL Status Field ok" := by decide
  by_cases hi : i = 0 <;> by_cases hp : p = "OK"
  · subst hi; subst hp; decide
  · simp only [statusTokens, infoTokens, hi, hp, if_true, if_false, List.singleton_append,
      intercalate_pair, hl]
    simp
  · simp only [statusTokens, infoTokens, hi, hp, if_true, if_false, List.append_nil]
  · simp only [statusTokens, infoTokens, hi, hp, if_false, List.append_nil,
      intercalate_single]
    simp

theorem append_phrase_ne_ok (p : String) : p ++ " TPL Status Field ok" ≠ "OK" := by
  intro h
  have h2 := congrArg String.length h
  simp only [String.length_append] at h2
  have h3 : (" TPL Status Field ok" : String).length = 20 := by decide
  have h4 : ("OK" : String).length = 2 := by decide
  omega

theorem writeBack_found {α : Type} (v old : α) : writeBack (.found v) old = (true, v) := rfl

theorem writeBack_notFound {α : Type} (old : α) : writeBack .notFound old = (false, old) := rfl

theorem writeBack_malformed {α : Type} (old : α) : writeBack .malformed old = (false, old) :=
  rfl

/-! ## The claims -/

/-- Claim C1 fails on the code for the date fields. On a fresh instance and a telegram that
carries none of the five date signatures, `processContent` of both drivers overwrites
`commission_date_`, `last_alarm_date_`, `last_remove_date_`, `test_button_last_date_` and
`sounder_test_last_date_` with the text of the shared local `datetime` (here still the message
date), while the guarded fields stay at their defaults; on no input at all can one of the five
date fields keep the default empty text. -/
theorem C1_absent_date_fields_overwritten (d0 : Tm) :
    (findRecord datelessTelegram.values "82206C" = none ∧
      findRecord datelessTelegram.values "82506C" = none ∧
      findRecord datelessTelegram.values "82606C" = none ∧
      findRecord datelessTelegram.values "82706C" = none ∧
      findRecord datelessTelegram.values "426C" = none) ∧
    MeterEI6500.processContent {} datelessTelegram d0 =
      { message_datetime_ := "2021-02-11 12:48",
        commission_date_ := "2021-02-11", last_alarm_date_ := "2021-02-11",
        last_remove_date_ := "2021-02-11", test_button_last_date_ := "2021-02-11",
        sounder_test_last_date_ := "2021-02-11" } ∧
    MeterEI650FA.processContent {} datelessTelegram d0 =
      { message_datetime_ := "2021-02-11 12:48",
        commission_date_ := "2021-02-11", last_alarm_date_ := "2021-02-11",
        last_remove_date_ := "2021-02-11", test_button_last_date_ := "2021-02-11",
        sounder_test_last_date_ := "2021-02-11" } ∧
    (∀ (m : MeterEI6500) (t : Telegram),
      (m.processContent t d0).commission_date_ ≠ "" ∧
      (m.processContent t d0).last_alarm_date_ ≠ "" ∧
      (m.processContent t d0).last_remove_date_ ≠ "" ∧
      (m.processContent t d0).test_button_last_date_ ≠ "" ∧
      (m.processContent t d0).sounder_test_last_date_ ≠ "") ∧
    (∀ (m : MeterEI650FA) (t : Telegram),
      (m.processContent t d0).commission_date_ ≠ "" ∧
      (m.processContent t d0).last_alarm_date_ ≠ "" ∧
      (m.processContent t d0).last_remove_date_ ≠ "" ∧
      (m.processContent t d0).test_button_last_date_ ≠ "" ∧
      (m.processContent t d0).sounder_test_last_date_ ≠ "") := by
  have h046 : ∀ d, extractDVdate datelessTelegram.values "046D" d
      = extractDVdate datelessTelegram.values "046D" ⟨0, 0, 0, 0, 0⟩ := fun _ => rfl
  refine ⟨by decide, ?_, ?_, ?_, ?_⟩
  · simp only [MeterEI6500.processContent, h046 d0]
    decide
  · simp only [MeterEI650FA.processContent, h046 d0]
    decide
  · intro m t
    simp only [MeterEI6500.processContent]
    exact ⟨strdate_ne_empty _, strdate_ne_empty _, strdate_ne_empty _,
      strdate_ne_empty _, strdate_ne_empty _⟩
  · intro m t
    simp only [MeterEI650FA.processContent]
    exact ⟨strdate_ne_empty _, strdate_ne_empty _, strdate_ne_empty _,
      strdate_ne_empty _, strdate_ne_empty _⟩

/-- Claim C2, as stated, fails for EI6500: with base status "OK" and the zero head status
word `head_status()` returns "Head status OK", not "OK". -/
theorem C2_counterexample :
    (fun _ => "OK") (({ head_status_ := 0 } : MeterEI6500).tpl_sts_) = "OK" ∧
    ({ head_status_ := 0 } : MeterEI6500).head_status_ &&& 0x170C0 = 0 ∧
    MeterEI6500.head_status (fun _ => "OK") { head_status_ := 0 } = "Head status OK" ∧
    MeterEI6500.head_status (fun _ => "OK") { head_status_ := 0 } ≠ "OK" := by
  decide

/-- Claim C2 (amended): when the decoded base status is "OK" and no vocabulary bit is set in
`head_status_`, EI650FA returns exactly "OK" and EI6500 returns exactly "Head status OK". -/
theorem C2_head_status_all_ok (dec : Nat → String) (a : MeterEI650FA) (b : MeterEI6500)
    (ha : dec a.tpl_sts_ = "OK") (hwa : a.head_status_ &&& 0x10B0E0 = 0)
    (hb : dec b.tpl_sts_ = "OK") (hwb : b.head_status_ &&& 0x170C0 = 0) :
    a.head_status dec = "OK" ∧ b.head_status dec = "Head status OK" := by
  constructor
  · rw [head_status_EI650FA_eq, setLabels_EI650FA_none _ hwa, ha]; rfl
  · rw [head_status_EI6500_eq, setLabels_EI6500_none _ hwb, hb]; rfl

/-- Witness of C2 on the word 0x0F00, which carries battery bits only. -/
theorem C2_head_status_all_ok_witness :
    (fun _ => "OK") (({ head_status_ := 0x0F00 } : MeterEI650FA).tpl_sts_) = "OK" ∧
    ({ head_status_ := 0x0F00 } : MeterEI650FA).head_status_ &&& 0x10B0E0 = 0 ∧
    (fun _ => "OK") (({ head_status_ := 0x0F00 } : MeterEI6500).tpl_sts_) = "OK" ∧
    ({ head_status_ := 0x0F00 } : MeterEI6500).head_status_ &&& 0x170C0 = 0 ∧
    MeterEI650FA.head_status (fun _ => "OK") { head_status_ := 0x0F00 } = "OK" ∧
    MeterEI6500.head_status (fun _ => "OK") { head_status_ := 0x0F00 } = "Head status OK" :=
  ⟨by decide, by decide, by decide, by decide,
    C2_head_status_all_ok (fun _ => "OK") { head_status_ := 0x0F00 } { head_status_ := 0x0F00 }
      (by decide) (by decide) (by decide) (by decide)⟩

/-- Claim C3, as stated, fails for EI6500: with base phrase "LOW BATTERY" and only the
HEAD_TAMPER_FLAG bit set the text carries the lead-in "Head status: ". -/
theorem C3_counterexample :
    (fun _ => "LOW BATTERY") (({ head_status_ := 0x40 } : MeterEI6500).tpl_sts_) ≠ "OK" ∧
    ({ head_status_ := 0x40 } : MeterEI6500).head_status_ &&& 0x170C0 = 0x40 ∧
    MeterEI6500.head_status (fun _ => "LOW BATTERY") { head_status_ := 0x40 }
      = "Head status: LOW BATTERY HEAD TAMPER FLAG Set" ∧
    MeterEI6500.head_status (fun _ => "LOW BATTERY") { head_status_ := 0x40 }
      ≠ "LOW BATTERY" ++ " HEAD TAMPER FLAG Set" := by
  decide

/-- Claim C3 (amended): for a base phrase p other than "OK" and a head status word whose only
vocabulary bit is HEAD_TAMPER_FLAG, EI650FA returns p ++ " HEAD TAMPER FLAG Set" and EI6500
returns "Head status: " ++ p ++ " HEAD TAMPER FLAG Set". -/
theorem C3_head_status_tamper (dec : Nat → String) (a : MeterEI650FA) (b : MeterEI6500)
    (ha : dec a.tpl_sts_ ≠ "OK") (hwa : a.head_status_ &&& 0x10B0E0 = HEAD_TAMPER_FLAG)
    (hb : dec b.tpl_sts_ ≠ "OK") (hwb : b.head_status_ &&& 0x170C0 = HEAD_TAMPER_FLAG) :
    a.head_status dec = dec a.tpl_sts_ ++ " HEAD TAMPER FLAG Set" ∧
    b.head_status dec = "Head status: " ++ (dec b.tpl_sts_ ++ " HEAD TAMPER FLAG Set") := by
  have hl : (" " : String) ++ "HEAD TAMPER FLAG Set" = " HEAD TAMPER FLAG Set" := by decide
  constructor
  · rw [head_status_EI650FA_eq, setLabels_EI650FA_tamper _ hwa]
    simp only [statusTokens, if_neg ha, List.singleton_append, intercalate_pair, hl]
    simp
  · rw [head_status_EI6500_eq, setLabels_EI6500_tamper _ hwb]
    simp only [statusTokens, if_neg hb, List.singleton_append, intercalate_pair, hl]
    simp

/-- Witness of C3 on the phrase "LOW BATTERY" and the word 0x0F40. -/
theorem C3_head_status_tamper_witness :
    (fun _ => "LOW BATTERY") (({ head_status_ := 0x0F40 } : MeterEI650FA).tpl_sts_) ≠ "OK" ∧
    ({ head_status_ := 0x0F40 } : MeterEI650FA).head_status_ &&& 0x10B0E0 = HEAD_TAMPER_FLAG ∧
    (fun _ => "LOW BATTERY") (({ head_status_ := 0x0F40 } : MeterEI6500).tpl_sts_) ≠ "OK" ∧
    ({ head_status_ := 0x0F40 } : MeterEI6500).head_status_ &&& 0x170C0 = HEAD_TAMPER_FLAG ∧
    MeterEI650FA.head_status (fun _ => "LOW BATTERY") { head_status_ := 0x0F40 }
      = (fun _ => "LOW BATTERY") (({ head_status_ := 0x0F40 } : MeterEI650FA).tpl_sts_)
          ++ " HEAD TAMPER FLAG Set" ∧
    MeterEI6500.head_status (fun _ => "LOW BATTERY") { head_status_ := 0x0F40 }
      = "Head status: " ++ ((fun _ => "LOW BATTERY") (({ head_status_ := 0x0F40 } : MeterEI6500).tpl_sts_)
          ++ " HEAD TAMPER FLAG Set") :=
  ⟨by decide, by decide, by decide, by decide,
    C3_head_status_tamper (fun _ => "LOW BATTERY") { head_status_ := 0x0F40 }
      { head_status_ := 0x0F40 } (by decide) (by decide) (by decide) (by decide)⟩

/-- Claim C4, as stated, fails: with base status "OK" and `info_codes_` zero the text returned
by `status()` does not carry the base text "OK" at all. -/
theorem C4_counterexample :
    (fun _ => "OK") (({ info_codes_ := 0 } : MeterEI6500).tpl_sts_) = "OK" ∧
    ({ info_codes_ := 0 } : MeterEI6500).info_codes_ = 0 ∧
    MeterEI6500.status (fun _ => "OK") { info_codes_ := 0 } ≠ "OK" ++ " " ++ "TPL Status Field ok" ∧
    MeterEI6500.status (fun _ => "OK") { info_codes_ := 0 } ≠ "OK" ++ "TPL Status Field ok" ∧
    (MeterEI6500.status (fun _ => "OK") { info_codes_ := 0 }).data.take 2 ≠ "OK".data ∧
    MeterEI650FA.status (fun _ => "OK") { info_codes_ := 0 } ≠ "OK" ++ " " ++ "TPL Status Field ok" ∧
    MeterEI650FA.status (fun _ => "OK") { info_codes_ := 0 } ≠ "OK" ++ "TPL Status Field ok" ∧
    (MeterEI650FA.status (fun _ => "OK") { info_codes_ := 0 }).data.take 2 ≠ "OK".data := by
  decide

/-- Claim C4 (amended): when the decoded base status is "OK" and `info_codes_` is zero,
`status()` returns exactly the confirmation phrase "TPL Status Field ok" (its trailing space
trimmed); the base text "OK" is not part of the result. -/
theorem C4_status_field_ok (dec : Nat → String) (a : MeterEI650FA) (b : MeterEI6500)
    (ha : dec a.tpl_sts_ = "OK") (hia : a.info_codes_ = 0)
    (hb : dec b.tpl_sts_ = "OK") (hib : b.info_codes_ = 0) :
    a.status dec = "TPL Status Field ok" ∧ b.status dec = "TPL Status Field ok" := by
  constructor
  · rw [status_EI650FA_eq, ha, hia]; rfl
  · rw [status_EI6500_eq, hb, hib]; rfl

/-- Witness of C4 on instances with `info_codes_` zero. -/
theorem C4_status_field_ok_witness :
    (fun _ => "OK") (({ head_status_ := 0x40 } : MeterEI650FA).tpl_sts_) = "OK" ∧
    ({ head_status_ := 0x40 } : MeterEI650FA).info_codes_ = 0 ∧
    (fun _ => "OK") (({ head_status_ := 0x40 } : MeterEI6500).tpl_sts_) = "OK" ∧
    ({ head_status_ := 0x40 } : MeterEI6500).info_codes_ = 0 ∧
    MeterEI650FA.status (fun _ => "OK") { head_status_ := 0x40 } = "TPL Status Field ok" ∧
    MeterEI6500.status (fun _ => "OK") { head_status_ := 0x40 } = "TPL Status Field ok" :=
  ⟨by decide, by decide, by decide, by decide,
    C4_status_field_ok (fun _ => "OK") { head_status_ := 0x40 } { head_status_ := 0x40 }
      (by decide) (by decide) (by decide) (by decide)⟩

/-- Claim C5: for EI650FA `head_status()` equals the reference renderer over the declared
vocabulary table, for every base phrase and every head status word. -/
theorem C5_head_status_EI650FA_reference (dec : Nat → String) (m : MeterEI650FA) :
    m.head_status dec = renderReference vocabularyEI650FA (dec m.tpl_sts_) m.head_status_ :=
  head_status_EI650FA_eq dec m

/-- Claim C6: bits outside the vocabulary are ignored; two head status words that agree on the
vocabulary mask of the profile render to the same text. -/
theorem C6_unknown_bits_ignored (dec : Nat → String) (a : MeterEI650FA) (b : MeterEI6500)
    (w1 w2 v1 v2 : Nat)
    (hw : w1 &&& 0x10B0E0 = w2 &&& 0x10B0E0) (hv : v1 &&& 0x170C0 = v2 &&& 0x170C0) :
    MeterEI650FA.head_status dec { a with head_status_ := w1 }
      = MeterEI650FA.head_status dec { a with head_status_ := w2 } ∧
    MeterEI6500.head_status dec { b with head_status_ := v1 }
      = MeterEI6500.head_status dec { b with head_status_ := v2 } := by
  constructor
  · rw [head_status_EI650FA_eq, head_status_EI650FA_eq]
    simp only [setLabels_congr vocabularyEI650FA 0x10B0E0 w1 w2 vocabularyEI650FA_mask hw]
  · rw [head_status_EI6500_eq, head_status_EI6500_eq]
    simp only [setLabels_congr vocabularyEI6500 0x170C0 v1 v2 vocabularyEI6500_mask hv]

/-- Witness of C6: words made of bits outside the vocabulary against the zero word. -/
theorem C6_unknown_bits_ignored_witness :
    (0x2060F00 &&& 0x10B0E0 = 0 &&& 0x10B0E0) ∧ (0x2E80F20 &&& 0x170C0 = 0 &&& 0x170C0) ∧
    MeterEI650FA.head_status (fun _ => "OK") { ({} : MeterEI650FA) with head_status_ := 0x2060F00 }
      = MeterEI650FA.head_status (fun _ => "OK") { ({} : MeterEI650FA) with head_status_ := 0 } ∧
    MeterEI6500.head_status (fun _ => "OK") { ({} : MeterEI6500) with head_status_ := 0x2E80F20 }
      = MeterEI6500.head_status (fun _ => "OK") { ({} : MeterEI6500) with head_status_ := 0 } :=
  ⟨by decide, by decide,
    C6_unknown_bits_ignored (fun _ => "OK") {} {} 0x2060F00 0 0x2E80F20 0 (by decide) (by decide)⟩

/-- Claim C7: for a transport status decoder within its contract ("OK" or a descriptive
phrase, never the empty text) and every stored state whose decoded base phrase does not end
with a space, the texts returned by `status()` and `head_status()` never end with a space, in
both profiles. -/
theorem C7_no_trailing_separator (dec : Nat → String) (a : MeterEI650FA) (b : MeterEI6500)
    (hdec : decoderContract dec)
    (ha : ¬ endsWithSpace (dec a.tpl_sts_)) (hb : ¬ endsWithSpace (dec b.tpl_sts_)) :
    ¬ endsWithSpace (a.status dec) ∧ ¬ endsWithSpace (a.head_status dec) ∧
    ¬ endsWithSpace (b.status dec) ∧ ¬ endsWithSpace (b.head_status dec) := by
  refine ⟨?_, ?_, ?_, ?_⟩
  · rw [status_EI650FA_eq]
    split
    · decide
    · exact intercalate_not_endsWithSpace _ _ ha (infoTokens_good _)
  · rw [head_status_EI650FA_eq]
    split
    · decide
    · exact intercalate_not_endsWithSpace _ _ ha (setLabels_good _ vocabularyEI650FA_good _)
  · rw [status_EI6500_eq]
    split
    · decide
    · exact intercalate_not_endsWithSpace _ _ hb (infoTokens_good _)
  · rw [head_status_EI6500_eq]
    split
    · decide
    · rename_i htoks
      rw [endsWithSpace_append _ _
        (intercalate_ne_empty _ _ (hdec _) (setLabels_good _ vocabularyEI6500_good _) htoks)]
      exact intercalate_not_endsWithSpace _ _ hb (setLabels_good _ vocabularyEI6500_good _)

/-- Witness of C7 on a decoder that answers "LOW BATTERY" and on the word 0x1040, which sets
two vocabulary bits of either profile; the texts are spelled out. -/
theorem C7_no_trailing_separator_witness :
    decoderContract (fun _ => "LOW BATTERY") ∧
    ¬ endsWithSpace ((fun _ => "LOW BATTERY") (({ head_status_ := 0x1040 } : MeterEI650FA).tpl_sts_)) ∧
    ¬ endsWithSpace ((fun _ => "LOW BATTERY") (({ head_status_ := 0x1040 } : MeterEI6500).tpl_sts_)) ∧
    (¬ endsWithSpace (MeterEI650FA.status (fun _ => "LOW BATTERY") { head_status_ := 0x1040 }) ∧
     ¬ endsWithSpace (MeterEI650FA.head_status (fun _ => "LOW BATTERY") { head_status_ := 0x1040 }) ∧
     ¬ endsWithSpace (MeterEI6500.status (fun _ => "LOW BATTERY") { head_status_ := 0x1040 }) ∧
     ¬ endsWithSpace (MeterEI6500.head_status (fun _ => "LOW BATTERY") { head_status_ := 0x1040 })) ∧
    MeterEI650FA.status (fun _ => "LOW BATTERY") { head_status_ := 0x1040 }
      = "LOW BATTERY TPL Status Field ok" ∧
    MeterEI650FA.head_status (fun _ => "LOW BATTERY") { head_status_ := 0x1040 }
      = "LOW BATTERY HEAD TAMPER FLAG Set LOW BATTERY FLAG Set" ∧
    MeterEI6500.head_status (fun _ => "LOW BATTERY") { head_status_ := 0x1040 }
      = "Head status: LOW BATTERY HEAD TAMPER FLAG Set LOW BATTERY FLAG Set" :=
  ⟨fun _ => (by decide : ("LOW BATTERY" : String) ≠ ""), by decide, by decide,
    C7_no_trailing_separator (fun _ => "LOW BATTERY") { head_status_ := 0x1040 }
      { head_status_ := 0x1040 } (fun _ => (by decide : ("LOW BATTERY" : String) ≠ ""))
      (by decide) (by decide),
    by decide, by decide, by decide⟩

/-- Claim C8: a present record 0BFD0F that decodes to n makes `processContent` store the three
two-digit groups of n as unpadded decimals joined by dots; bytes 06 01 01 give "1.1.6"; every
group is below 100 and digits of n above the sixth do not matter. -/
theorem C8_software_version (a : MeterEI650FA) (b : MeterEI6500) (t : Telegram) (d0 : Tm)
    (n : Nat) (h : decodeBCD t.values "0BFD0F" = .found n) :
    (a.processContent t d0).software_version_ =
      toString ((n / 10000) % 100) ++ "." ++ toString ((n / 100) % 100) ++ "." ++
        toString (n % 100) ∧
    (b.processContent t d0).software_version_ =
      toString ((n / 10000) % 100) ++ "." ++ toString ((n / 100) % 100) ++ "." ++
        toString (n % 100) ∧
    (n / 10000) % 100 < 100 ∧ (n / 100) % 100 < 100 ∧ n % 100 < 100 ∧
    versionText n = versionText (n % 1000000) ∧
    bcdValue [0x06, 0x01, 0x01] = 10106 ∧ versionText 10106 = "1.1.6" := by
  refine ⟨software_version_EI650FA a t d0 n h, software_version_EI6500 b t d0 n h,
    Nat.mod_lt _ (by decide), Nat.mod_lt _ (by decide), Nat.mod_lt _ (by decide), ?_,
    by decide, by decide⟩
  unfold versionText
  have h1 : (n % 1000000) / 10000 % 100 = (n / 10000) % 100 := by omega
  have h2 : (n % 1000000) / 100 % 100 = (n / 100) % 100 := by omega
  have h3 : (n % 1000000) % 100 = n % 100 := by omega
  rw [h1, h2, h3]

/-- Witness of C8 on the documented sample telegram. -/
theorem C8_software_version_witness :
    decodeBCD sampleTelegram.values "0BFD0F" = .found 10106 ∧
    (MeterEI650FA.processContent {} sampleTelegram ⟨0, 0, 0, 0, 0⟩).software_version_ = "1.1.6" ∧
    (MeterEI6500.processContent {} sampleTelegram ⟨0, 0, 0, 0, 0⟩).software_version_ = "1.1.6" :=
  have h := C8_software_version {} {} sampleTelegram ⟨0, 0, 0, 0, 0⟩ 10106 (by decide)
  ⟨by decide, h.1.trans (by decide), h.2.1.trans (by decide)⟩

/-- Claim C9, as stated, fails: for the documented bytes 06 01 01 the decoded integer is 10106,
its least significant group is 6, and the first position of the stored text "1.1.6" is "1". -/
theorem C9_counterexample :
    decodeBCD sampleTelegram.values "0BFD0F" = .found 10106 ∧
    (MeterEI6500.processContent {} sampleTelegram ⟨0, 0, 0, 0, 0⟩).software_version_ = "1.1.6" ∧
    (MeterEI650FA.processContent {} sampleTelegram ⟨0, 0, 0, 0, 0⟩).software_version_ = "1.1.6" ∧
    firstGroup (MeterEI6500.processContent {} sampleTelegram ⟨0, 0, 0, 0, 0⟩).software_version_
      ≠ toString (10106 % 100) ∧
    firstGroup (MeterEI650FA.processContent {} sampleTelegram ⟨0, 0, 0, 0, 0⟩).software_version_
      ≠ toString (10106 % 100) := by
  decide

/-- Claim C9 (amended): in the stored version text the least significant two-digit group of
the decoded BCD integer (n mod 100, the first byte on the wire) is placed in the last position,
and the first position holds the most significant group (n / 10000) mod 100. -/
theorem C9_version_group_order (a : MeterEI650FA) (b : MeterEI6500) (t : Telegram) (d0 : Tm)
    (n : Nat) (h : decodeBCD t.values "0BFD0F" = .found n) :
    lastGroup (a.processContent t d0).software_version_ = toString (n % 100) ∧
    firstGroup (a.processContent t d0).software_version_ = toString ((n / 10000) % 100) ∧
    lastGroup (b.processContent t d0).software_version_ = toString (n % 100) ∧
    firstGroup (b.processContent t d0).software_version_ = toString ((n / 10000) % 100) ∧
    (∀ b0 b1 b2 : UInt8, bcdValue [b0, b1, b2] % 100 = bcdByte b0 % 100) := by
  rw [software_version_EI650FA a t d0 n h, software_version_EI6500 b t d0 n h]
  refine ⟨lastGroup_versionText n, firstGroup_versionText n, lastGroup_versionText n,
    firstGroup_versionText n, ?_⟩
  intro b0 b1 b2
  simp only [bcdValue]
  omega

/-- Witness of C9 on the documented sample telegram. -/
theorem C9_version_group_order_witness :
    decodeBCD sampleTelegram.values "0BFD0F" = .found 10106 ∧
    lastGroup (MeterEI650FA.processContent {} sampleTelegram ⟨0, 0, 0, 0, 0⟩).software_version_
      = "6" ∧
    firstGroup (MeterEI650FA.processContent {} sampleTelegram ⟨0, 0, 0, 0, 0⟩).software_version_
      = "1" ∧
    lastGroup (MeterEI6500.processContent {} sampleTelegram ⟨0, 0, 0, 0, 0⟩).software_version_
      = "6" ∧
    firstGroup (MeterEI6500.processContent {} sampleTelegram ⟨0, 0, 0, 0, 0⟩).software_version_
      = "1" :=
  have h := C9_version_group_order {} {} sampleTelegram ⟨0, 0, 0, 0, 0⟩ 10106 (by decide)
  ⟨by decide, h.1.trans (by decide), h.2.1.trans (by decide), h.2.2.1.trans (by decide),
    h.2.2.2.1.trans (by decide)⟩

/-- Claim C10 holds for EI6500 and fails for EI650FA: decoding the documented sample telegram
on a fresh instance gives version "1.1.6", smoke alarm counter 0, removed counter 0 and total
remove duration 0 in both drivers, but the test button counter is 1 only in EI6500; EI650FA
looks up 8470FD61, which the sample does not carry, and its counter stays 0. -/
theorem C10_sample_telegram (d0 : Tm) :
    ((MeterEI6500.processContent {} sampleTelegram d0).software_version_ = "1.1.6" ∧
      (MeterEI6500.processContent {} sampleTelegram d0).smoke_alarm_counter_ = 0 ∧
      (MeterEI6500.processContent {} sampleTelegram d0).removed_counter_ = 0 ∧
      (MeterEI6500.processContent {} sampleTelegram d0).total_remove_duration_ = 0 ∧
      (MeterEI6500.processContent {} sampleTelegram d0).test_button_counter_ = 1) ∧
    ((MeterEI650FA.processContent {} sampleTelegram d0).software_version_ = "1.1.6" ∧
      (MeterEI650FA.processContent {} sampleTelegram d0).smoke_alarm_counter_ = 0 ∧
      (MeterEI650FA.processContent {} sampleTelegram d0).removed_counter_ = 0 ∧
      (MeterEI650FA.processContent {} sampleTelegram d0).total_remove_duration_ = 0) ∧
    findRecord sampleTelegram.values "8470FD61" = none ∧
    (MeterEI650FA.processContent {} sampleTelegram d0).test_button_counter_ = 0 ∧
    (MeterEI650FA.processContent {} sampleTelegram d0).test_button_counter_ ≠ 1 := by
  refine ⟨⟨rfl, rfl, rfl, rfl, rfl⟩, ⟨rfl, rfl, rfl, rfl⟩, by decide, rfl, ?_⟩
  have h : (MeterEI650FA.processContent {} sampleTelegram d0).test_button_counter_ = 0 := rfl
  rw [h]; decide

/-- Claim C11: the counters of a profile are decoded from the records under its own
signatures only; two record maps that differ at most under the three counter signatures of the
other profile give the same stored fields (counters included), in EI6500 and in EI650FA. -/
theorem C11_no_cross_contamination (b : MeterEI6500) (a : MeterEI650FA) (s : Nat)
    (v w1 w2 : Records) (d0 : Tm)
    (h1 : ∀ k, k ≠ "8450FD61" → k ≠ "8460FD61" → k ≠ "8470FD61" →
      findRecord v k = findRecord w1 k)
    (h2 : ∀ k, k ≠ "8250FD61" → k ≠ "8260FD61" → k ≠ "8270FD61" →
      findRecord v k = findRecord w2 k) :
    b.processContent ⟨s, v⟩ d0 = b.processContent ⟨s, w1⟩ d0 ∧
    a.processContent ⟨s, v⟩ d0 = a.processContent ⟨s, w2⟩ d0 := by
  constructor
  · apply processContent_EI6500_congr
    intro k hk
    apply h1 k <;> (intro hkk; subst hkk; revert hk; decide)
  · apply processContent_EI650FA_congr
    intro k hk
    apply h2 k <;> (intro hkk; subst hkk; revert hk; decide)

/-- Witness of C11 on a record map with the counter records of both profiles: EI6500 reads
5, 2 and 9, EI650FA reads 7, 3 and 11, whatever is stored under the other signatures. -/
theorem C11_no_cross_contamination_witness :
    (∀ k, k ≠ "8450FD61" → k ≠ "8460FD61" → k ≠ "8470FD61" →
      findRecord bothCounters k = findRecord bothCountersFA k) ∧
    (∀ k, k ≠ "8250FD61" → k ≠ "8260FD61" → k ≠ "8270FD61" →
      findRecord bothCounters k = findRecord bothCounters65 k) ∧
    (MeterEI6500.processContent {} ⟨0, bothCounters⟩ ⟨0, 0, 0, 0, 0⟩
      = MeterEI6500.processContent {} ⟨0, bothCountersFA⟩ ⟨0, 0, 0, 0, 0⟩ ∧
     MeterEI650FA.processContent {} ⟨0, bothCounters⟩ ⟨0, 0, 0, 0, 0⟩
      = MeterEI650FA.processContent {} ⟨0, bothCounters65⟩ ⟨0, 0, 0, 0, 0⟩) ∧
    (MeterEI6500.processContent {} ⟨0, bothCountersFA⟩ ⟨0, 0, 0, 0, 0⟩).smoke_alarm_counter_ = 5 ∧
    (MeterEI6500.processContent {} ⟨0, bothCountersFA⟩ ⟨0, 0, 0, 0, 0⟩).removed_counter_ = 2 ∧
    (MeterEI6500.processContent {} ⟨0, bothCountersFA⟩ ⟨0, 0, 0, 0, 0⟩).test_button_counter_ = 9 ∧
    (MeterEI650FA.processContent {} ⟨0, bothCounters65⟩ ⟨0, 0, 0, 0, 0⟩).smoke_alarm_counter_ = 7 ∧
    (MeterEI650FA.processContent {} ⟨0, bothCounters65⟩ ⟨0, 0, 0, 0, 0⟩).removed_counter_ = 3 ∧
    (MeterEI650FA.processContent {} ⟨0, bothCounters65⟩ ⟨0, 0, 0, 0, 0⟩).test_button_counter_ = 11 :=
  ⟨bothCounters_agree_FA, bothCounters_agree_65,
    C11_no_cross_contamination {} {} 0 bothCounters bothCountersFA bothCounters65 ⟨0, 0, 0, 0, 0⟩
      bothCounters_agree_FA bothCounters_agree_65,
    by decide, by decide, by decide, by decide, by decide, by decide⟩

/-- Claim C12 holds for EI6500 and for ten of the thirteen fields of EI650FA, and fails for
the three counters of EI650FA. `processContent` has no failing path: on every telegram it
sets `tpl_sts_` and runs all of its extractions, and whatever the other records are (present,
absent or malformed) a field whose own record is present and well-formed receives the decode
of that record, while a guarded or integer field whose record is absent or malformed keeps
its value. The counters of EI650FA break this: their record under 8470FD61, present with the
four bytes its descriptor declares (value 65536), is not decoded and `test_button_counter_`
keeps its old value. -/
theorem C12_partial_failure (b : MeterEI6500) (a : MeterEI650FA) (t : Telegram) (d0 : Tm) :
    ((b.processContent t d0).tpl_sts_ = t.tpl_sts ∧
     (∀ n, decodeBCD t.values "0BFD0F" = .found n →
        (b.processContent t d0).software_version_ =
          toString ((n / 10000) % 100) ++ "." ++ toString ((n / 100) % 100) ++ "." ++
            toString (n % 100)) ∧
     (decodeBCD t.values "0BFD0F" = .notFound ∨ decodeBCD t.values "0BFD0F" = .malformed →
        (b.processContent t d0).software_version_ = b.software_version_) ∧
     (∀ d, decodeDate t.values "046D" = .found d →
        (b.processContent t d0).message_datetime_ = strdatetime d) ∧
     (decodeDate t.values "046D" = .notFound ∨ decodeDate t.values "046D" = .malformed →
        (b.processContent t d0).message_datetime_ = b.message_datetime_) ∧
     (∀ v, decodeUInt 2 t.values "02FD17" = .found v →
        (b.processContent t d0).info_codes_ = v) ∧
     (decodeUInt 2 t.values "02FD17" = .notFound ∨ decodeUInt 2 t.values "02FD17" = .malformed →
        (b.processContent t d0).info_codes_ = b.info_codes_) ∧
     (∀ v, decodeUInt 4 t.values "8440FF2C" = .found v →
        (b.processContent t d0).head_status_ = v) ∧
     (decodeUInt 4 t.values "8440FF2C" = .notFound ∨
        decodeUInt 4 t.values "8440FF2C" = .malformed →
        (b.processContent t d0).head_status_ = b.head_status_) ∧
     (∀ v, decodeUInt 2 t.values "8250FD61" = .found v →
        (b.processContent t d0).smoke_alarm_counter_ = v) ∧
     (decodeUInt 2 t.values "8250FD61" = .notFound ∨
        decodeUInt 2 t.values "8250FD61" = .malformed →
        (b.processContent t d0).smoke_alarm_counter_ = b.smoke_alarm_counter_) ∧
     (∀ v, decodeUInt 2 t.values "8260FD61" = .found v →
        (b.processContent t d0).removed_counter_ = v) ∧
     (decodeUInt 2 t.values "8260FD61" = .notFound ∨
        decodeUInt 2 t.values "8260FD61" = .malformed →
        (b.processContent t d0).removed_counter_ = b.removed_counter_) ∧
     (∀ v, decodeUInt 3 t.values "8360FD31" = .found v →
        (b.processContent t d0).total_remove_duration_ = v) ∧
     (decodeUInt 3 t.values "8360FD31" = .notFound ∨
        decodeUInt 3 t.values "8360FD31" = .malformed →
        (b.processContent t d0).total_remove_duration_ = b.total_remove_duration_) ∧
     (∀ v, decodeUInt 2 t.values "8270FD61" = .found v →
        (b.processContent t d0).test_button_counter_ = v) ∧
     (decodeUInt 2 t.values "8270FD61" = .notFound ∨
        decodeUInt 2 t.values "8270FD61" = .malformed →
        (b.processContent t d0).test_button_counter_ = b.test_button_counter_) ∧
     (∀ d, decodeDate t.values "82206C" = .found d →
        (b.processContent t d0).commission_date_ = strdate d) ∧
     (∀ d, decodeDate t.values "82506C" = .found d →
        (b.processContent t d0).last_alarm_date_ = strdate d) ∧
     (∀ d, decodeDate t.values "82606C" = .found d →
        (b.processContent t d0).last_remove_date_ = strdate d) ∧
     (∀ d, decodeDate t.values "82706C" = .found d →
        (b.processContent t d0).test_button_last_date_ = strdate d) ∧
     (∀ d, decodeDate t.values "426C" = .found d →
        (b.processContent t d0).sounder_test_last_date_ = strdate d)) ∧
    ((a.processContent t d0).tpl_sts_ = t.tpl_sts ∧
     (∀ n, decodeBCD t.values "0BFD0F" = .found n →
        (a.processContent t d0).software_version_ =
          toString ((n / 10000) % 100) ++ "." ++ toString ((n / 100) % 100) ++ "." ++
            toString (n % 100)) ∧
     (decodeBCD t.values "0BFD0F" = .notFound ∨ decodeBCD t.values "0BFD0F" = .malformed →
        (a.processContent t d0).software_version_ = a.software_version_) ∧
     (∀ d, decodeDate t.values "046D" = .found d →
        (a.processContent t d0).message_datetime_ = strdatetime d) ∧
     (decodeDate t.values "046D" = .notFound ∨ decodeDate t.values "046D" = .malformed →
        (a.processContent t d0).message_datetime_ = a.message_datetime_) ∧
     (∀ v, decodeUInt 2 t.values "02FD17" = .found v →
        (a.processContent t d0).info_codes_ = v) ∧
     (decodeUInt 2 t.values "02FD17" = .notFound ∨ decodeUInt 2 t.values "02FD17" = .malformed →
        (a.processContent t d0).info_codes_ = a.info_codes_) ∧
     (∀ v, decodeUInt 4 t.values "8440FF2C" = .found v →
        (a.processContent t d0).head_status_ = v) ∧
     (decodeUInt 4 t.values "8440FF2C" = .notFound ∨
        decodeUInt 4 t.values "8440FF2C" = .malformed →
        (a.processContent t d0).head_status_ = a.head_status_) ∧
     (∀ v, decodeUInt 3 t.values "8360FD31" = .found v →
        (a.processContent t d0).total_remove_duration_ = v) ∧
     (decodeUInt 3 t.values "8360FD31" = .notFound ∨
        decodeUInt 3 t.values "8360FD31" = .malformed →
        (a.processContent t d0).total_remove_duration_ = a.total_remove_duration_) ∧
     (∀ d, decodeDate t.values "82206C" = .found d →
        (a.processContent t d0).commission_date_ = strdate d) ∧
     (∀ d, decodeDate t.values "82506C" = .found d →
        (a.processContent t d0).last_alarm_date_ = strdate d) ∧
     (∀ d, decodeDate t.values "82606C" = .found d →
        (a.processContent t d0).last_remove_date_ = strdate d) ∧
     (∀ d, decodeDate t.values "82706C" = .found d →
        (a.processContent t d0).test_button_last_date_ = strdate d) ∧
     (∀ d, decodeDate t.values "426C" = .found d →
        (a.processContent t d0).sounder_test_last_date_ = strdate d)) ∧
    ((decodeBCD partlyMalformedTelegram.values "0BFD0F" = .malformed ∧
      decodeUInt 4 partlyMalformedTelegram.values "8440FF2C" = .malformed ∧
      decodeDate partlyMalformedTelegram.values "82206C" = .malformed ∧
      decodeUInt 2 partlyMalformedTelegram.values "02FD17" = .notFound ∧
      decodeDate partlyMalformedTelegram.values "82606C" = .notFound) ∧
     ((MeterEI6500.processContent {} partlyMalformedTelegram d0).tpl_sts_ = 0x04 ∧
      (MeterEI6500.processContent {} partlyMalformedTelegram d0).software_version_ = "" ∧
      (MeterEI6500.processContent {} partlyMalformedTelegram d0).message_datetime_
        = "2021-02-11 12:48" ∧
      (MeterEI6500.processContent {} partlyMalformedTelegram d0).info_codes_ = 0 ∧
      (MeterEI6500.processContent {} partlyMalformedTelegram d0).head_status_ = 0 ∧
      (MeterEI6500.processContent {} partlyMalformedTelegram d0).last_alarm_date_
        = "2000-01-01" ∧
      (MeterEI6500.processContent {} partlyMalformedTelegram d0).smoke_alarm_counter_ = 5 ∧
      (MeterEI6500.processContent {} partlyMalformedTelegram d0).removed_counter_ = 0 ∧
      (MeterEI6500.processContent {} partlyMalformedTelegram d0).total_remove_duration_ = 7 ∧
      (MeterEI6500.processContent {} partlyMalformedTelegram d0).test_button_counter_ = 9 ∧
      (MeterEI6500.processContent {} partlyMalformedTelegram d0).sounder_test_last_date_
        = "2021-02-11") ∧
     ((MeterEI650FA.processContent {} partlyMalformedTelegram d0).tpl_sts_ = 0x04 ∧
      (MeterEI650FA.processContent {} partlyMalformedTelegram d0).software_version_ = "" ∧
      (MeterEI650FA.processContent {} partlyMalformedTelegram d0).message_datetime_
        = "2021-02-11 12:48" ∧
      (MeterEI650FA.processContent {} partlyMalformedTelegram d0).head_status_ = 0 ∧
      (MeterEI650FA.processContent {} partlyMalformedTelegram d0).last_alarm_date_
        = "2000-01-01" ∧
      (MeterEI650FA.processContent {} partlyMalformedTelegram d0).total_remove_duration_ = 7 ∧
      (MeterEI650FA.processContent {} partlyMalformedTelegram d0).sounder_test_last_date_
        = "2021-02-11")) ∧
    (findRecord wideCounterTelegram.values "8470FD61" = some ⟨0x54, [0x00, 0x00, 0x01, 0x00]⟩ ∧
      declaredBits "8470FD61" = some 32 ∧
      leValue [0x00, 0x00, 0x01, 0x00] = 65536 ∧
      (a.processContent wideCounterTelegram d0).test_button_counter_ = a.test_button_counter_ ∧
      (MeterEI650FA.processContent {} wideCounterTelegram d0).test_button_counter_ = 0 ∧
      (MeterEI650FA.processContent { test_button_counter_ := 3 } wideCounterTelegram
        d0).test_button_counter_ = 3) := by
  have h046 : ∀ d, extractDVdate partlyMalformedTelegram.values "046D" d
      = extractDVdate partlyMalformedTelegram.values "046D" ⟨0, 0, 0, 0, 0⟩ := fun _ => rfl
  refine ⟨?_, ?_, ⟨by decide, ?_, ?_⟩, ?_⟩
  · repeat' apply And.intro
    all_goals
      first
        | (intro v h
           simp only [MeterEI6500.processContent, extractDVlong, extractDVdate, extractDVuint16,
             extractDVuint24, extractDVuint32, h, writeBack_found, versionText, if_true]
           try ((repeat' split) <;> rfl))
        | (intro h
           rcases h with h | h <;>
           simp only [MeterEI6500.processContent, extractDVlong, extractDVdate, extractDVuint16,
             extractDVuint24, extractDVuint32, h, writeBack_notFound, writeBack_malformed,
             Bool.false_eq_true, if_false] <;>
           try ((repeat' split) <;> rfl))
        | (simp only [MeterEI6500.processContent]
           try ((repeat' split) <;> rfl))
  · repeat' apply And.intro
    all_goals
      first
        | (intro v h
           simp only [MeterEI650FA.processContent, extractDVlong, extractDVdate, extractDVuint16,
             extractDVuint24, extractDVuint32, h, writeBack_found, versionText, if_true]
           try ((repeat' split) <;> rfl))
        | (intro h
           rcases h with h | h <;>
           simp only [MeterEI650FA.processContent, extractDVlong, extractDVdate, extractDVuint16,
             extractDVuint24, extractDVuint32, h, writeBack_notFound, writeBack_malformed,
             Bool.false_eq_true, if_false] <;>
           try ((repeat' split) <;> rfl))
        | (simp only [MeterEI650FA.processContent]
           try ((repeat' split) <;> rfl))
  · simp only [MeterEI6500.processContent, h046 d0]
    decide
  · simp only [MeterEI650FA.processContent, h046 d0]
    decide
  · refine ⟨by decide, by decide, by decide, ?_, rfl, rfl⟩
    have hw : extractDVuint16 wideCounterTelegram.values "8470FD61" a.test_button_counter_
        = (false, a.test_button_counter_) := rfl
    simp only [MeterEI650FA.processContent, hw]
    split <;> split <;> rfl

/-- Claim C13, as stated, fails: on two fresh instances, which hold identical stored field
values, `commissionDate()` returns "" in EI650FA and "Commission date: " in EI6500. -/
theorem C13_counterexample :
    sameStoredFields {} {} ∧
    MeterEI650FA.commissionDate {} = "" ∧
    MeterEI6500.commissionDate {} = "Commission date: " ∧
    MeterEI650FA.commissionDate {} ≠ MeterEI6500.commissionDate {} ∧
    MeterEI650FA.smokeAlarmCounter {} ≠ MeterEI6500.smokeAlarmCounter {} := by
  decide

/-- Claim C13 (amended): for identical stored field values `status()` returns the same text
in both profiles, and every field getter of EI6500 returns the text of the EI650FA getter
preceded by a fixed label of its own. -/
theorem C13_getters_differ_by_label (dec : Nat → String) (a : MeterEI650FA) (b : MeterEI6500)
    (h : sameStoredFields a b) :
    a.status dec = b.status dec ∧
    b.messageDate = "Message date & time: " ++ a.messageDate ∧
    b.commissionDate = "Commission date: " ++ a.commissionDate ∧
    b.lastAlarmDate = "Last alarm date: " ++ a.lastAlarmDate ∧
    b.smokeAlarmCounter = "Alarm counter: " ++ a.smokeAlarmCounter ∧
    b.removedCounter = "Head removed counter: " ++ a.removedCounter ∧
    b.totalRemoveDuration = "Remove duration: " ++ a.totalRemoveDuration ∧
    b.lastRemoveDate = "Head removed date: " ++ a.lastRemoveDate ∧
    b.testButtonCounter = "Test button counter: " ++ a.testButtonCounter ∧
    b.testButtonLastDate = "Last test button date: " ++ a.testButtonLastDate ∧
    b.sounderTestLastDate = "Last sounder test date: " ++ a.sounderTestLastDate := by
  obtain ⟨_, h2, h3, h4, _, h6, h7, h8, h9, h10, h11, h12, h13, h14⟩ := h
  refine ⟨?_, ?_, ?_, ?_, ?_, ?_, ?_, ?_, ?_, ?_, ?_⟩
  · simp only [MeterEI650FA.status, MeterEI6500.status, h3, h4]
  · simp only [MeterEI6500.messageDate, MeterEI650FA.messageDate, h2]
  · simp only [MeterEI6500.commissionDate, MeterEI650FA.commissionDate, h7]
  · simp only [MeterEI6500.lastAlarmDate, MeterEI650FA.lastAlarmDate, h8]
  · simp only [MeterEI6500.smokeAlarmCounter, MeterEI650FA.smokeAlarmCounter, h6]
  · simp only [MeterEI6500.removedCounter, MeterEI650FA.removedCounter, h12]
  · simp only [MeterEI6500.totalRemoveDuration, MeterEI650FA.totalRemoveDuration, h9,
      String.append_assoc]
  · simp only [MeterEI6500.lastRemoveDate, MeterEI650FA.lastRemoveDate, h10]
  · simp only [MeterEI6500.testButtonCounter, MeterEI650FA.testButtonCounter, h13]
  · simp only [MeterEI6500.testButtonLastDate, MeterEI650FA.testButtonLastDate, h11]
  · simp only [MeterEI6500.sounderTestLastDate, MeterEI650FA.sounderTestLastDate, h14]

/-- Witness of C13 on the two instances obtained from the documented sample telegram with the
counters of EI650FA set to those of EI6500. -/
theorem C13_getters_differ_by_label_witness :
    sameStoredFields
      { MeterEI650FA.processContent {} sampleTelegram ⟨0, 0, 0, 0, 0⟩ with
        test_button_counter_ := 1 }
      (MeterEI6500.processContent {} sampleTelegram ⟨0, 0, 0, 0, 0⟩) ∧
    MeterEI6500.totalRemoveDuration (MeterEI6500.processContent {} sampleTelegram ⟨0, 0, 0, 0, 0⟩)
      = "Remove duration: 0 minutes" ∧
    MeterEI650FA.totalRemoveDuration
      { MeterEI650FA.processContent {} sampleTelegram ⟨0, 0, 0, 0, 0⟩ with
        test_button_counter_ := 1 } = "0 minutes" :=
  have h := C13_getters_differ_by_label (fun _ => "OK")
    { MeterEI650FA.processContent {} sampleTelegram ⟨0, 0, 0, 0, 0⟩ with
        test_button_counter_ := 1 }
    (MeterEI6500.processContent {} sampleTelegram ⟨0, 0, 0, 0, 0⟩) (by decide)
  ⟨by decide, h.2.2.2.2.2.2.1.trans (by decide), by decide⟩

/-- Claim C14 holds for EI6500 and fails for EI650FA: the width declared by the data-field
nibble equals the width of the extractor for all six integer fields of EI6500 and for info
codes, head status and total remove duration of EI650FA, but the three counters of EI650FA are
extracted with `extractDVuint16` from signatures 8450FD61, 8460FD61 and 8470FD61 that declare
32 bit; a record of the declared four bytes (value 65536) leaves `test_button_counter_` 0. -/
theorem C14_declared_width (a : MeterEI650FA) (t : Telegram) (d0 : Tm) :
    (∀ e ∈ integerExtractionsEI6500, declaredBits e.2.1 = some e.2.2) ∧
    (integerExtractionsEI650FA.filter (fun e => declaredBits e.2.1 != some e.2.2)
      = [ ("smoke_alarm_counter_", "8450FD61", 16), ("removed_counter_", "8460FD61", 16),
          ("test_button_counter_", "8470FD61", 16) ]) ∧
    (declaredBits "8450FD61" = some 32 ∧ declaredBits "8460FD61" = some 32 ∧
      declaredBits "8470FD61" = some 32) ∧
    ((a.processContent t d0).smoke_alarm_counter_
        = (extractDVuint16 t.values "8450FD61" a.smoke_alarm_counter_).2 ∧
      (a.processContent t d0).removed_counter_
        = (extractDVuint16 t.values "8460FD61" a.removed_counter_).2 ∧
      (a.processContent t d0).test_button_counter_
        = (extractDVuint16 t.values "8470FD61" a.test_button_counter_).2) ∧
    (findRecord wideCounterTelegram.values "8470FD61" = some ⟨0x54, [0x00, 0x00, 0x01, 0x00]⟩ ∧
      leValue [0x00, 0x00, 0x01, 0x00] = 65536 ∧
      (MeterEI650FA.processContent {} wideCounterTelegram d0).test_button_counter_ = 0) := by
  refine ⟨by decide, by decide, by decide, ⟨?_, ?_, ?_⟩, by decide, by decide, rfl⟩ <;>
  · simp only [MeterEI650FA.processContent]
    split <;> split <;> rfl

/-- Claim C15: a record 8360FD31 of exactly three bytes b0 b1 b2 makes `processContent` store
b0 + 256*b1 + 65536*b2 in `total_remove_duration_`, a value below 2^24; 00 00 00 gives 0 and
01 00 00 gives 1, and `totalRemoveDuration()` renders the decimal value followed by
" minutes" (after the label "Remove duration: " in EI6500). -/
theorem C15_total_remove_duration (a : MeterEI650FA) (b : MeterEI6500) (t : Telegram)
    (d0 : Tm) (off : Nat) (b0 b1 b2 : UInt8)
    (h : findRecord t.values "8360FD31" = some ⟨off, [b0, b1, b2]⟩) :
    (a.processContent t d0).total_remove_duration_
      = b0.toNat + 256 * b1.toNat + 65536 * b2.toNat ∧
    (b.processContent t d0).total_remove_duration_
      = b0.toNat + 256 * b1.toNat + 65536 * b2.toNat ∧
    b0.toNat + 256 * b1.toNat + 65536 * b2.toNat < 2 ^ 24 ∧
    (a.processContent t d0).totalRemoveDuration
      = toString (b0.toNat + 256 * b1.toNat + 65536 * b2.toNat) ++ " minutes" ∧
    (b.processContent t d0).totalRemoveDuration
      = "Remove duration: " ++ toString (b0.toNat + 256 * b1.toNat + 65536 * b2.toNat)
          ++ " minutes" ∧
    leValue [0x00, 0x00, 0x00] = 0 ∧ leValue [0x01, 0x00, 0x00] = 1 := by
  have hd : decodeUInt 3 t.values "8360FD31"
      = .found (b0.toNat + 256 * b1.toNat + 65536 * b2.toNat) := by
    simp only [decodeUInt, h, List.length_cons, List.length_nil, leValue_three]
    rfl
  have ha : (a.processContent t d0).total_remove_duration_
      = b0.toNat + 256 * b1.toNat + 65536 * b2.toNat := by
    simp only [MeterEI650FA.processContent, extractDVuint24, hd, writeBack]
  have hb : (b.processContent t d0).total_remove_duration_
      = b0.toNat + 256 * b1.toNat + 65536 * b2.toNat := by
    simp only [MeterEI6500.processContent, extractDVuint24, hd, writeBack]
  have l0 := UInt8.toNat_lt b0
  have l1 := UInt8.toNat_lt b1
  have l2 := UInt8.toNat_lt b2
  refine ⟨ha, hb, by omega, ?_, ?_, by decide, by decide⟩
  · simp only [MeterEI650FA.totalRemoveDuration, ha]
  · simp only [MeterEI6500.totalRemoveDuration, hb]

/-- Witness of C15 on the documented sample telegram, whose record 8360FD31 is 00 00 00. -/
theorem C15_total_remove_duration_witness :
    findRecord sampleTelegram.values "8360FD31" = some ⟨0x48, [0x00, 0x00, 0x00]⟩ ∧
    (MeterEI650FA.processContent {} sampleTelegram ⟨0, 0, 0, 0, 0⟩).total_remove_duration_ = 0 ∧
    (MeterEI6500.processContent {} sampleTelegram ⟨0, 0, 0, 0, 0⟩).total_remove_duration_ = 0 ∧
    (MeterEI650FA.processContent {} sampleTelegram ⟨0, 0, 0, 0, 0⟩).totalRemoveDuration
      = "0 minutes" ∧
    (MeterEI6500.processContent {} sampleTelegram ⟨0, 0, 0, 0, 0⟩).totalRemoveDuration
      = "Remove duration: 0 minutes" :=
  have h := C15_total_remove_duration {} {} sampleTelegram ⟨0, 0, 0, 0, 0⟩ 0x48 0x00 0x00 0x00
    (by decide)
  ⟨by decide, h.1.trans (by decide), h.2.1.trans (by decide), h.2.2.2.1.trans (by decide),
    h.2.2.2.2.1.trans (by decide)⟩

/-- Claim C16: for every valid calendar date (day 1..31, month 1..12, two-digit year) the
packed 2-byte encoding decodes to the original day, month and year, and the packed 4-byte
date-time with hour 0..23 and minute 0..59 decodes in addition to the original hour and
minute; on the documented sample 30 0C AB 22 gives "2021-02-11 12:48", AB 22 gives
"2021-02-11" and 01 01 gives "2000-01-01". -/
theorem C16_packed_date_round_trip (day month year hour minute : Nat) (sig : String) (off : Nat)
    (hd1 : 1 ≤ day) (hd2 : day ≤ 31) (hm1 : 1 ≤ month) (hm2 : month ≤ 12) (hy : year ≤ 99)
    (hh : hour ≤ 23) (hmin : minute ≤ 59) :
    decodeDate
        [(sig, ⟨off, [(encodePackedDate day month year).1, (encodePackedDate day month year).2]⟩)]
        sig
      = .found { tm_min := 0, tm_hour := 0, tm_mday := day, tm_mon := month - 1,
                 tm_year := year + 100 } ∧
    decodeDate [(sig, ⟨off, encodePackedDateTime minute hour day month year⟩)] sig
      = .found { tm_min := minute, tm_hour := hour, tm_mday := day, tm_mon := month - 1,
                 tm_year := year + 100 } ∧
    (month - 1) + 1 = month ∧ (year + 100) + 1900 = 2000 + year ∧
    (MeterEI6500.processContent {} sampleTelegram ⟨0, 0, 0, 0, 0⟩).message_datetime_
      = "2021-02-11 12:48" ∧
    (MeterEI650FA.processContent {} sampleTelegram ⟨0, 0, 0, 0, 0⟩).message_datetime_
      = "2021-02-11 12:48" ∧
    (MeterEI6500.processContent {} sampleTelegram ⟨0, 0, 0, 0, 0⟩).commission_date_
      = "2021-02-11" ∧
    (MeterEI650FA.processContent {} sampleTelegram ⟨0, 0, 0, 0, 0⟩).commission_date_
      = "2021-02-11" ∧
    (MeterEI6500.processContent {} sampleTelegram ⟨0, 0, 0, 0, 0⟩).last_alarm_date_
      = "2000-01-01" ∧
    (MeterEI650FA.processContent {} sampleTelegram ⟨0, 0, 0, 0, 0⟩).last_alarm_date_
      = "2000-01-01" := by
  have hdec := decodePackedDate_encode day month year hd1 hd2 hm1 hm2 hy
  have e1 : (UInt8.ofNat minute).toNat % 64 = minute := by
    have : (UInt8.ofNat minute).toNat = minute % 256 := rfl
    omega
  have e2 : (UInt8.ofNat hour).toNat % 32 = hour := by
    have : (UInt8.ofNat hour).toNat = hour % 256 := rfl
    omega
  refine ⟨?_, ?_, by omega, by omega, by decide, by decide, by decide, by decide, by decide,
    by decide⟩
  · simp only [decodeDate, findRecord_single, hdec]
  · simp only [decodeDate, findRecord_single, encodePackedDateTime, hdec, e1, e2]

/-- Witness of C16 on the date and time of the documented sample, 2021-02-11 12:48, whose
encoding is the documented byte sequence 30 0C AB 22. -/
theorem C16_packed_date_round_trip_witness :
    (1 ≤ 11 ∧ 11 ≤ 31 ∧ 1 ≤ 2 ∧ 2 ≤ 12 ∧ 21 ≤ 99 ∧ 12 ≤ 23 ∧ 48 ≤ 59) ∧
    encodePackedDateTime 48 12 11 2 21 = [0x30, 0x0C, 0xAB, 0x22] ∧
    decodeDate [("046D", ⟨0x19, encodePackedDateTime 48 12 11 2 21⟩)] "046D"
      = .found { tm_min := 48, tm_hour := 12, tm_mday := 11, tm_mon := 2 - 1,
                 tm_year := 21 + 100 } ∧
    strdatetime { tm_min := 48, tm_hour := 12, tm_mday := 11, tm_mon := 2 - 1,
                  tm_year := 21 + 100 } = "2021-02-11 12:48" :=
  ⟨by decide, by decide,
    (C16_packed_date_round_trip 11 2 21 12 48 "046D" 0x19 (by decide) (by decide) (by decide)
      (by decide) (by decide) (by decide) (by decide)).2.1,
    by decide⟩

/-- Claim C17: `status()` and `head_status()` leave the object as it is, a second call on the
same state returns the text of the first, and the text of `status()` depends on `tpl_sts_` and
`info_codes_` only, that of `head_status()` on `tpl_sts_` and `head_status_` only, in both
profiles. -/
theorem C17_rendering_deterministic (dec : Nat → String) (a a2 : MeterEI650FA)
    (b b2 : MeterEI6500) :
    ((a.statusCall dec).2 = a ∧ (a.head_statusCall dec).2 = a ∧
      (b.statusCall dec).2 = b ∧ (b.head_statusCall dec).2 = b) ∧
    (((a.statusCall dec).2.statusCall dec).1 = (a.statusCall dec).1 ∧
      ((a.head_statusCall dec).2.head_statusCall dec).1 = (a.head_statusCall dec).1 ∧
      ((b.statusCall dec).2.statusCall dec).1 = (b.statusCall dec).1 ∧
      ((b.head_statusCall dec).2.head_statusCall dec).1 = (b.head_statusCall dec).1) ∧
    (a.tpl_sts_ = a2.tpl_sts_ → a.info_codes_ = a2.info_codes_ →
      a.status dec = a2.status dec) ∧
    (a.tpl_sts_ = a2.tpl_sts_ → a.head_status_ = a2.head_status_ →
      a.head_status dec = a2.head_status dec) ∧
    (b.tpl_sts_ = b2.tpl_sts_ → b.info_codes_ = b2.info_codes_ →
      b.status dec = b2.status dec) ∧
    (b.tpl_sts_ = b2.tpl_sts_ → b.head_status_ = b2.head_status_ →
      b.head_status dec = b2.head_status dec) := by
  refine ⟨⟨rfl, rfl, rfl, rfl⟩, ⟨rfl, rfl, rfl, rfl⟩, ?_, ?_, ?_, ?_⟩
  · intro h1 h2
    simp only [MeterEI650FA.status, h1, h2]
  · intro h1 h2
    simp only [MeterEI650FA.head_status, h1, h2]
  · intro h1 h2
    simp only [MeterEI6500.status, h1, h2]
  · intro h1 h2
    simp only [MeterEI6500.head_status, h1, h2]

/-- Witness of C17: the instance decoded from the documented sample telegram against an
instance that shares only `tpl_sts_`, `info_codes_` and `head_status_` with it. -/
theorem C17_rendering_deterministic_witness :
    MeterEI650FA.status (fun _ => "LOW BATTERY")
        (MeterEI650FA.processContent {} sampleTelegram ⟨0, 0, 0, 0, 0⟩)
      = MeterEI650FA.status (fun _ => "LOW BATTERY") { head_status_ := 0x110F00 } ∧
    MeterEI650FA.head_status (fun _ => "LOW BATTERY")
        (MeterEI650FA.processContent {} sampleTelegram ⟨0, 0, 0, 0, 0⟩)
      = MeterEI650FA.head_status (fun _ => "LOW BATTERY") { head_status_ := 0x110F00 } ∧
    MeterEI6500.status (fun _ => "LOW BATTERY")
        (MeterEI6500.processContent {} sampleTelegram ⟨0, 0, 0, 0, 0⟩)
      = MeterEI6500.status (fun _ => "LOW BATTERY") { head_status_ := 0x110F00 } ∧
    MeterEI6500.head_status (fun _ => "LOW BATTERY")
        (MeterEI6500.processContent {} sampleTelegram ⟨0, 0, 0, 0, 0⟩)
      = MeterEI6500.head_status (fun _ => "LOW BATTERY") { head_status_ := 0x110F00 } :=
  have h := C17_rendering_deterministic (fun _ => "LOW BATTERY")
    (MeterEI650FA.processContent {} sampleTelegram ⟨0, 0, 0, 0, 0⟩) { head_status_ := 0x110F00 }
    (MeterEI6500.processContent {} sampleTelegram ⟨0, 0, 0, 0, 0⟩) { head_status_ := 0x110F00 }
  ⟨h.2.2.1 (by decide) (by decide), h.2.2.2.1 (by decide) (by decide),
    h.2.2.2.2.1 (by decide) (by decide), h.2.2.2.2.2 (by decide) (by decide)⟩

/-- Claim C18: in both profiles `status()` returns "OK" exactly when the decoded base status
is "OK" and `info_codes_` is not zero, and for a non-zero info word the text is the base
phrase alone, so no bit of the info word contributes any text. -/
theorem C18_status_ok_iff (dec : Nat → String) (a : MeterEI650FA) (b : MeterEI6500) :
    (a.status dec = "OK" ↔ dec a.tpl_sts_ = "OK" ∧ a.info_codes_ ≠ 0) ∧
    (b.status dec = "OK" ↔ dec b.tpl_sts_ = "OK" ∧ b.info_codes_ ≠ 0) ∧
    (a.info_codes_ ≠ 0 → a.status dec = dec a.tpl_sts_) ∧
    (b.info_codes_ ≠ 0 → b.status dec = dec b.tpl_sts_) := by
  have key : ∀ (p : String) (i : Nat),
      ((if i = 0 then (if p = "OK" then "TPL Status Field ok" else p ++ " TPL Status Field ok")
        else p) = "OK" ↔ p = "OK" ∧ i ≠ 0) := by
    intro p i
    by_cases hi : i = 0
    · simp only [hi, if_true, ne_eq, not_true_eq_false, and_false, iff_false]
      by_cases hp : p = "OK"
      · simp only [hp, if_true]; decide
      · simp only [hp, if_false]; exact append_phrase_ne_ok p
    · simp only [hi, if_false, ne_eq, not_false_eq_true, and_true]
  refine ⟨?_, ?_, ?_, ?_⟩
  · rw [status_EI650FA_eq, status_cases]; exact key _ _
  · rw [status_EI6500_eq, status_cases]; exact key _ _
  · intro h; rw [status_EI650FA_eq, status_cases, if_neg h]
  · intro h; rw [status_EI6500_eq, status_cases, if_neg h]

/-- Witness of C18: with a non-zero info word the text is the base phrase, "OK" for the base
status "OK", and with the zero info word it is not "OK". -/
theorem C18_status_ok_iff_witness :
    MeterEI650FA.status (fun _ => "OK") { info_codes_ := 0x8001 } = "OK" ∧
    MeterEI6500.status (fun _ => "OK") { info_codes_ := 0x8001 } = "OK" ∧
    MeterEI650FA.status (fun _ => "OK") { info_codes_ := 0 } ≠ "OK" ∧
    MeterEI6500.status (fun _ => "LOW BATTERY") { info_codes_ := 0x8001 } = "LOW BATTERY" :=
  have h := C18_status_ok_iff (fun _ => "OK") { info_codes_ := 0x8001 } { info_codes_ := 0x8001 }
  have h0 := C18_status_ok_iff (fun _ => "OK") { info_codes_ := 0 } { info_codes_ := 0 }
  have hl := C18_status_ok_iff (fun _ => "LOW BATTERY") { info_codes_ := 0x8001 }
    { info_codes_ := 0x8001 }
  ⟨h.1.mpr (by decide), h.2.1.mpr (by decide), fun e => (h0.1.mp e).2 rfl,
    hl.2.2.2 (by decide)⟩

/-- Claim C19: `smokeDetected()` returns false for every stored state of both profiles, also
after any telegram was processed, with a non-zero smoke alarm counter and with head status
bits set. -/
theorem C19_smokeDetected_false (a : MeterEI650FA) (b : MeterEI6500) (t : Telegram) (d0 : Tm) :
    a.smokeDetected = false ∧ b.smokeDetected = false ∧
    (a.processContent t d0).smokeDetected = false ∧
    (b.processContent t d0).smokeDetected = false ∧
    MeterEI650FA.smokeDetected { smoke_alarm_counter_ := 3, head_status_ := 0x10B0E0 } = false ∧
    MeterEI6500.smokeDetected { smoke_alarm_counter_ := 3, head_status_ := 0x170C0 } = false :=
  ⟨rfl, rfl, rfl, rfl, rfl, rfl⟩

/-- Claim C20: for EI6500 `head_status()` equals the reference renderer over the declared
six-entry table: "Head status OK" without tokens, else "Head status: " followed by the tokens
joined by single spaces, for every base phrase and every head status word. -/
theorem C20_head_status_EI6500_reference (dec : Nat → String) (m : MeterEI6500) :
    m.head_status dec = renderReferenceEI6500 vocabularyEI6500 (dec m.tpl_sts_) m.head_status_ :=
  head_status_EI6500_eq dec m

end WMBus
